import Mathlib

/-!
Verification of the `customer_intelligence` evaluation engine.

This file is a shallow embedding, in Lean 4, of the evaluation subsystem of
the `customer-intelligence` repository: the metric library
(`evaluation/metrics.py`), the fuzzy matcher (`evaluation/fuzzy_matching.py`),
the structural validator (`evaluation/structural_checks.py`), the per-layer
signal evaluators (`evaluation/signal_evaluators.py`), the report models
(`evaluation/report.py`) and the runner (`evaluation/runner.py`).

Modelling conventions:
* Python floats are modelled as rationals (`ℚ`); Python ints as `ℤ`
  (list indices produced by `enumerate` as `ℕ`).
* Python's `None` / NaN sentinels are modelled as `Option` (`none` = absent).
* Python sets of strings are modelled as `Finset String`.
* Python's stable `list.sort(key=..., reverse=True)` is modelled by
  `List.insertionSort` with the relation "key of the left argument is at
  least the key of the right argument", which is the same stable
  descending-by-key sort.
* String messages keep the fixed text of the Python f-strings; purely
  numeric interpolations that would require decimal formatting of floats
  (e.g. `std=0.000`) are elided, as are quote characters.
-/

attribute [local semireducible] Rat.add Rat.mul Rat.sub Rat.inv

/-! ### Metrics library (`evaluation/metrics.py`) -/

/-- Fraction of predicted items that are correct
(`metrics.precision`): `|predicted ∩ actual| / |predicted|`, with
`1.0` when both sets are empty and `0.0` when only `predicted` is empty. -/
def precision (predicted actual : Finset String) : ℚ :=
  if predicted = ∅ then (if actual = ∅ then 1 else 0)
  else ((predicted ∩ actual).card : ℚ) / predicted.card

/-- Fraction of actual items that were found (`metrics.recall`):
`|predicted ∩ actual| / |actual|`, with `1.0` when `actual` is empty. -/
def recall' (predicted actual : Finset String) : ℚ :=
  if actual = ∅ then 1
  else ((predicted ∩ actual).card : ℚ) / actual.card

/-- Harmonic mean of precision and recall (`metrics.f1`);
`0.0` when `p + r == 0`. -/
def f1 (p r : ℚ) : ℚ :=
  if p + r = 0 then 0 else 2 * p * r / (p + r)

/-- Compute precision, recall, and F1 in one call
(`metrics.precision_recall_f1`). -/
def precision_recall_f1 (predicted actual : Finset String) : ℚ × ℚ × ℚ :=
  let p := precision predicted actual
  let r := recall' predicted actual
  (p, r, f1 p r)

/-- Agreement score for ordered categorical values
(`metrics.ordinal_agreement`): `1 - |index(predicted) - index(actual)| /
(len(scale) - 1)`; `0.0` if either value is not in `scale`; `1.0` if the
scale has a single element (`max_dist == 0`). -/
def ordinal_agreement (predicted actual : String) (scale : List String) : ℚ :=
  if predicted ∉ scale ∨ actual ∉ scale then 0
  else
    let max_dist : ℤ := (scale.length : ℤ) - 1
    if max_dist = 0 then 1
    else
      let dist : ℤ := |(scale.indexOf predicted : ℤ) - (scale.indexOf actual : ℤ)|
      1 - (dist : ℚ) / (max_dist : ℚ)

/-- Round a rational to the nearest integer, ties to the even integer
(the rounding used by Python's builtin `round`). -/
def roundHalfEven (q : ℚ) : ℤ :=
  let f := ⌊q⌋
  let r := q - f
  if r < 1/2 then f
  else if 1/2 < r then f + 1
  else if f % 2 = 0 then f else f + 1

/-- Round a rational to 4 decimal places, ties to even
(Python's `round(x, 4)`). -/
def round4 (q : ℚ) : ℚ := (roundHalfEven (q * 10000) : ℚ) / 10000

/-- Bucket counts over the five equal-width bins of `[0, 1]` used by
`score_distribution_stats`: the counts produced by its
`if s < 0.2 / elif s < 0.4 / ... / else` chain, keyed like the Python dict. -/
def bucket_counts (scores : List ℚ) : List (String × ℕ) :=
  [("0.0-0.2", scores.countP (fun s => decide (s < 1/5))),
   ("0.2-0.4", scores.countP (fun s => decide (1/5 ≤ s ∧ s < 2/5))),
   ("0.4-0.6", scores.countP (fun s => decide (2/5 ≤ s ∧ s < 3/5))),
   ("0.6-0.8", scores.countP (fun s => decide (3/5 ≤ s ∧ s < 4/5))),
   ("0.8-1.0", scores.countP (fun s => decide (4/5 ≤ s)))]

/-- Result of `metrics.score_distribution_stats`, together with the
`issues` key added by `structural_checks.check_score_distribution`.
`mean`/`variance` are `none` for the NaN sentinels of the empty case.
The Python dict stores `std = sqrt(variance)` rounded to 4 places; since
the square root of a rational is irrational we store the exact variance
instead, and comparisons against `std` are stated on the variance (the
square root is strictly monotone on nonnegatives). -/
structure DistStats where
  mean : Option ℚ
  variance : Option ℚ
  buckets : List (String × ℕ)
  n : ℕ
  issues : List String := []
deriving Repr, DecidableEq

/-- Distribution statistics for a list of 0-1 scores
(`metrics.score_distribution_stats`): population mean (rounded to 4
places, ties to even) and variance, five-bin bucket counts, and `n`;
an explicit empty result (NaN mean/std as `none`, empty buckets, `n = 0`)
for empty input. -/
def score_distribution_stats (scores : List ℚ) : DistStats :=
  if scores = [] then { mean := none, variance := none, buckets := [], n := 0 }
  else
    let n := scores.length
    let mean := scores.sum / (n : ℚ)
    let variance := (scores.map (fun s => (s - mean) ^ 2)).sum / (n : ℚ)
    { mean := some (round4 mean), variance := some variance,
      buckets := bucket_counts scores, n := n }

/-! ### Structural validator (`evaluation/structural_checks.py`) -/

/-- Check that utterance indices are valid
(`structural_checks.validate_utterance_indices`): flags indices `< 0` or
`> max_index` with a labeled message. -/
def validate_utterance_indices (indices : List ℤ) (max_index : ℤ)
    (label : String) : List String :=
  indices.flatMap (fun idx =>
    if idx < 0 then [s!"{label}: negative index {idx}"]
    else if max_index < idx then [s!"{label}: index {idx} exceeds max {max_index}"]
    else [])

/-- Message emitted by `check_score_distribution` for a near-constant score
list (numeric `std=...` interpolation elided). -/
def lowVarianceMsg (label : String) : String :=
  s!"{label}: very low variance - scores may not be well-calibrated"

/-- Message emitted by `check_score_distribution` when all scores fall in a
single bucket (the count interpolation is kept, it is an exact integer). -/
def singleBucketMsg (label : String) (n : ℕ) (bucket : String) : String :=
  s!"{label}: all {n} scores in bucket {bucket}"

/-- Analyze a score distribution and flag degenerate patterns
(`structural_checks.check_score_distribution`): wraps
`score_distribution_stats` and, when `n ≥ 3`, flags (a) `std < 0.05`
(stated as `variance < 0.05²`, see `DistStats`) and (b) all scores in a
single bucket when additionally `n ≥ 5`. -/
def check_score_distribution (scores : List ℚ) (label : String) : DistStats :=
  let stats := score_distribution_stats scores
  if 3 ≤ stats.n then
    let lowVar :=
      if stats.variance.getD 0 < (1/20) ^ 2 then [lowVarianceMsg label] else []
    let nonEmptyBuckets := (stats.buckets.filter (fun b => 0 < b.2)).length
    let bucketName := ((stats.buckets.find? (fun b => 0 < b.2)).getD ("", 0)).1
    let singleBucket :=
      if nonEmptyBuckets = 1 ∧ 5 ≤ stats.n then
        [singleBucketMsg label stats.n bucketName]
      else []
    { stats with issues := lowVar ++ singleBucket }
  else
    { stats with issues := [] }

/-! ### Fuzzy matcher (`evaluation/fuzzy_matching.py`) -/

/-- Lowercased whitespace tokenization: `s.lower().split()` in Python
(split on whitespace runs, no empty tokens). Defined on the character
list so that it evaluates by `decide`. -/
def splitWsAux : List Char → List Char → List String
  | [], acc => if acc = [] then [] else [String.mk acc.reverse]
  | c :: rest, acc =>
    if c.isWhitespace then
      if acc = [] then splitWsAux rest [] else String.mk acc.reverse :: splitWsAux rest []
    else splitWsAux rest (c :: acc)

/-- Lowercase a string characterwise (Python `str.lower` on ASCII). -/
def lowerStr (s : String) : String := String.mk (s.data.map Char.toLower)

/-- Tokens of `s.lower().split()`. -/
def lowerTokens (s : String) : List String := splitWsAux (lowerStr s).data []

/-- Jaccard similarity on lowercased word tokens
(`fuzzy_matching.token_overlap_similarity`): both token sets empty → `1.0`;
exactly one empty → `0.0`; else `|A ∩ B| / |A ∪ B|`. -/
def token_overlap_similarity (a b : String) : ℚ :=
  let tokens_a := (lowerTokens a).toFinset
  let tokens_b := (lowerTokens b).toFinset
  if tokens_a = ∅ ∧ tokens_b = ∅ then 1
  else if tokens_a = ∅ ∨ tokens_b = ∅ then 0
  else ((tokens_a ∩ tokens_b).card : ℚ) / (tokens_a ∪ tokens_b).card

/-- Candidate pair list built by the double loop of
`compute_fuzzy_precision_recall`: one `(score, i, j)` triple per
`(extracted[i], ground_truth[j])` pair with `score >= threshold`,
in `i`-major, `j`-minor order. -/
def candidatePairs (extracted ground_truth : List String)
    (similarity_fn : String → String → ℚ) (threshold : ℚ) : List (ℚ × ℕ × ℕ) :=
  (List.range extracted.length).flatMap (fun i =>
    (List.range ground_truth.length).filterMap (fun j =>
      let score := similarity_fn (extracted.getD i "") (ground_truth.getD j "")
      if threshold ≤ score then some (score, i, j) else none))

/-- Relation used to sort candidate pairs: descending by similarity score
(`pairs.sort(key=lambda x: x[0], reverse=True)`); `insertionSort` with this
relation is the same stable sort. -/
def descBySim (a b : ℚ × ℕ × ℕ) : Prop := b.1 ≤ a.1

instance : DecidableRel descBySim := fun a b => inferInstanceAs (Decidable (b.1 ≤ a.1))

instance : IsTotal (ℚ × ℕ × ℕ) descBySim := ⟨fun a b => le_total b.1 a.1⟩

instance : IsTrans (ℚ × ℕ × ℕ) descBySim := ⟨fun _ _ _ h h' => le_trans h' h⟩

/-- Greedy 1:1 assignment of the sorted candidate pairs: take a pair iff
neither its extracted index nor its ground-truth index was used before
(the `for score, i, j in pairs:` loop of `compute_fuzzy_precision_recall`,
with `used_extracted` / `used_gt` as lists instead of Python sets). -/
def greedyAssign : List (ℚ × ℕ × ℕ) → List ℕ → List ℕ → List (ℚ × ℕ × ℕ)
  | [], _, _ => []
  | p :: rest, used_extracted, used_gt =>
    if p.2.1 ∈ used_extracted ∨ p.2.2 ∈ used_gt then
      greedyAssign rest used_extracted used_gt
    else
      p :: greedyAssign rest (p.2.1 :: used_extracted) (p.2.2 :: used_gt)

/-- Index-level matching computed by `compute_fuzzy_precision_recall`:
candidate pairs, sorted descending by similarity (stably), then greedily
assigned one-to-one. -/
def fuzzyMatchedIdx (extracted ground_truth : List String)
    (similarity_fn : String → String → ℚ) (threshold : ℚ) : List (ℚ × ℕ × ℕ) :=
  greedyAssign
    (List.insertionSort descBySim
      (candidatePairs extracted ground_truth similarity_fn threshold)) [] []

/-- Compute precision, recall, F1 using greedy 1:1 fuzzy matching
(`fuzzy_matching.compute_fuzzy_precision_recall`). Returns
`(precision, recall, f1, matched_pairs)`; the matched pair
`(extracted[i], ground_truth[j], score)` is written with `getD` since both
indices come from `range` over the respective list. -/
def compute_fuzzy_precision_recall (extracted ground_truth : List String)
    (similarity_fn : String → String → ℚ) (threshold : ℚ) :
    ℚ × ℚ × ℚ × List (String × String × ℚ) :=
  if extracted = [] ∧ ground_truth = [] then (1, 1, 1, [])
  else if extracted = [] then (0, 0, 0, [])
  else if ground_truth = [] then (0, 1, 0, [])
  else
    let matched := (fuzzyMatchedIdx extracted ground_truth similarity_fn threshold).map
      (fun t => (extracted.getD t.2.1 "", ground_truth.getD t.2.2 "", t.1))
    let n_matched : ℚ := matched.length
    let p := n_matched / (extracted.length : ℚ)
    let r := n_matched / (ground_truth.length : ℚ)
    let f := if 0 < p + r then 2 * p * r / (p + r) else 0
    (p, r, f, matched)

example : compute_fuzzy_precision_recall ["pricing", "support"]
    ["pricing", "integration"] token_overlap_similarity (1/2) =
    (1/2, 1/2, 1/2, [("pricing", "pricing", 1)]) := by decide

example : (check_score_distribution [9/10, 9/10, 9/10, 9/10, 9/10] "lbl").issues =
    [lowVarianceMsg "lbl", singleBucketMsg "lbl" 5 "0.8-1.0"] := by decide

example : ordinal_agreement "low" "high" ["low", "moderate", "high"] = 0 := by decide

/-! ### Schemas (`schemas/*.py`)

Only the evaluation-relevant fields are modelled; pydantic `Literal`
string enums are modelled as `String` (the engine trusts field types,
spec section 6), validated float ranges as plain `ℚ`. -/

/-- Sentiment about a specific aspect (`schemas.surface.AspectSentiment`). -/
structure AspectSentiment where
  aspect : String
  sentiment : String
  intensity : ℚ
  context : Option String := none
  source_utterance_indices : List ℤ
deriving Repr, DecidableEq

/-- A topic discussed during the call (`schemas.surface.TopicDetection`). -/
structure TopicDetection where
  name : String
  timeline_position : String
  relevance : ℚ
deriving Repr, DecidableEq

/-- A person, company, product, or competitor mentioned in the call
(`schemas.surface.NamedEntity`). -/
structure NamedEntity where
  name : String
  entity_type : String
  role : Option String := none
  mention_count : ℕ := 1
deriving Repr, DecidableEq

/-- An important term or concept (`schemas.surface.KeyPhrase`). -/
structure KeyPhrase where
  phrase : String
  relevance : ℚ
  context : Option String := none
deriving Repr, DecidableEq

/-- Container for all Layer 1 surface signals
(`schemas.surface.SurfaceSignals`). -/
structure SurfaceSignals where
  aspects : List AspectSentiment
  topics : List TopicDetection
  entities : List NamedEntity
  key_phrases : List KeyPhrase
deriving Repr, DecidableEq

/-- A concern raised by the prospect (`schemas.behavioral.Objection`). -/
structure Objection where
  type : String
  specific_language : String := ""
  speaker_role : String := ""
  conversation_stage : String := ""
  source_utterance_indices : List ℤ
deriving Repr, DecidableEq

/-- A rep's attempt to address an objection
(`schemas.behavioral.Resolution`). -/
structure Resolution where
  type : String
  specific_language : String := ""
  speaker_role : String := "rep"
  source_utterance_indices : List ℤ
deriving Repr, DecidableEq

/-- The result of an objection-resolution exchange
(`schemas.behavioral.ObjectionOutcome`). -/
structure ObjectionOutcome where
  resolved : Bool
  deal_progressed : Bool := false
  next_action : Option String := none
deriving Repr, DecidableEq

/-- An objection -> resolution -> outcome sequence
(`schemas.behavioral.ObjectionTriple`). -/
structure ObjectionTriple where
  objection : Objection
  resolution : Option Resolution := none
  outcome : ObjectionOutcome
  confidence : ℚ
deriving Repr, DecidableEq

/-- A linguistic cue correlating with deal progression
(`schemas.behavioral.BuyingIntentMarker`). -/
structure BuyingIntentMarker where
  type : String
  evidence : String := ""
  confidence : ℚ
  source_utterance_indices : List ℤ := []
deriving Repr, DecidableEq

/-- A reference to a competitor (`schemas.behavioral.CompetitiveMention`). -/
structure CompetitiveMention where
  competitor : String
  context : String := ""
  sentiment : String
  comparison_type : Option String := none
  source_utterance_indices : List ℤ
deriving Repr, DecidableEq

/-- Prospect engagement at a phase of the conversation
(`schemas.behavioral.EngagementTrajectoryPoint`). -/
structure EngagementTrajectoryPoint where
  phase : String
  participation_level : String
  question_depth : String
  energy : String
  notes : Option String := none
deriving Repr, DecidableEq

/-- Container for all Layer 2 behavioral signals
(`schemas.behavioral.BehavioralSignals`). -/
structure BehavioralSignals where
  objection_triples : List ObjectionTriple
  buying_intent_markers : List BuyingIntentMarker
  competitive_mentions : List CompetitiveMention
  engagement_trajectory : List EngagementTrajectoryPoint
deriving Repr, DecidableEq

/-- The buyer's evaluation framework (`schemas.psychographic.MentalModel`). -/
structure MentalModel where
  primary : String
  secondary : Option String := none
  evidence : List String
  confidence : ℚ
  reasoning : String := ""
deriving Repr, DecidableEq

/-- Signals suggesting a buyer archetype
(`schemas.psychographic.PersonaIndicator`). -/
structure PersonaIndicator where
  archetype : String
  confidence : ℚ
  evidence : List String := []
  reasoning : String := ""
deriving Repr, DecidableEq

/-- Distinctive vocabulary and framing patterns
(`schemas.psychographic.LanguageFingerprint`). -/
structure LanguageFingerprint where
  distinctive_vocabulary : List String
  metaphors : List String
  framing_patterns : List String
deriving Repr, DecidableEq

/-- Container for all Layer 3 psychographic signals
(`schemas.psychographic.PsychographicSignals`). -/
structure PsychographicSignals where
  mental_model : MentalModel
  persona_indicators : List PersonaIndicator
  language_fingerprint : LanguageFingerprint
deriving Repr, DecidableEq

/-- A detected text / non-verbal contradiction
(`schemas.multimodal.DivergenceSignal`). -/
structure DivergenceSignal where
  utterance_index : ℤ
  type : String
  text_sentiment : String := ""
  interpretation : String := ""
  confidence : ℚ := 0
deriving Repr, DecidableEq

/-- Sentiment adjusted by multimodal fusion
(`schemas.multimodal.CompositeSentiment`). -/
structure CompositeSentiment where
  utterance_index : ℤ
  original_text_polarity : String := ""
  adjusted_polarity : String
  confidence : ℚ := 0
  note : Option String := none
deriving Repr, DecidableEq

/-- Container for all multimodal divergence signals
(`schemas.multimodal.MultimodalSignals`). -/
structure MultimodalSignals where
  divergences : List DivergenceSignal
  composite_sentiments : List CompositeSentiment
deriving Repr, DecidableEq

/-- A single speaker turn (`schemas.transcript.Utterance`); the
paralinguistic field is not read by the evaluation engine and is omitted. -/
structure Utterance where
  speaker : String := ""
  text : String
  turn_index : ℤ
deriving Repr, DecidableEq

/-- A sales call transcript (`schemas.transcript.Transcript`); the
`account` and `call_metadata` fields are not read by the evaluators and
are omitted. -/
structure Transcript where
  utterances : List Utterance
deriving Repr, DecidableEq

/-- The object under evaluation (`schemas.extraction.ExtractionResult`):
four layers, multimodal optional. -/
structure ExtractionResult where
  transcript_id : String
  surface : SurfaceSignals
  behavioral : BehavioralSignals
  psychographic : PsychographicSignals
  multimodal : Option MultimodalSignals := none
deriving Repr, DecidableEq

/-! ### Report models (`evaluation/report.py`) -/

/-- A single LLM-as-judge rubric score (`report.JudgeScore`); pydantic
validates `1 <= score <= 5`. -/
structure JudgeScore where
  score : ℤ
  justification : String := ""
deriving Repr, DecidableEq

/-- Precision/recall/F1 and optional supplementary metrics for one signal
type (`report.SignalMetrics`). -/
structure SignalMetrics where
  signal_name : String
  precision : Option ℚ := none
  recall' : Option ℚ := none
  f1 : Option ℚ := none
  count_extracted : ℕ := 0
  count_ground_truth : ℕ := 0
  accuracy : Option ℚ := none
  mae : Option ℚ := none
  ordinal_agreement : Option ℚ := none
  baseline_agreement : Option ℚ := none
  judge_scores : List JudgeScore := []
  mean_judge_score : Option ℚ := none
  structural_issues : List String := []
  score_distribution : Option DistStats := none
  matched_pairs : List (String × String × ℚ) := []
deriving Repr, DecidableEq

/-- Evaluation report for one extraction layer (`report.LayerReport`). -/
structure LayerReport where
  layer_name : String
  signal_metrics : List SignalMetrics := []
deriving Repr, DecidableEq

/-- Complete evaluation report for one extraction result vs ground truth
(`report.EvaluationReport`). -/
structure EvaluationReport where
  transcript_id : String
  surface : LayerReport
  behavioral : LayerReport
  psychographic : LayerReport
  multimodal : Option LayerReport := none
deriving Repr, DecidableEq

/-- Flat list of all signal metrics across layers
(`EvaluationReport.all_signal_metrics`). -/
def EvaluationReport.all_signal_metrics (r : EvaluationReport) : List SignalMetrics :=
  r.surface.signal_metrics ++ r.behavioral.signal_metrics ++
    r.psychographic.signal_metrics ++
    (match r.multimodal with
     | some m => m.signal_metrics
     | none => [])

/-- Average F1 across all signal types (`EvaluationReport.overall_f1`):
mean of the F1 values that are present; `none` models the NaN returned on
an empty score list. -/
def EvaluationReport.overall_f1 (r : EvaluationReport) : Option ℚ :=
  let scores := r.all_signal_metrics.filterMap (fun m => m.f1)
  if scores = [] then none else some (scores.sum / (scores.length : ℚ))

/-! ### Signal evaluators (`evaluation/signal_evaluators.py`) -/

/-- Fuzzy match threshold for entities. -/
def ENTITY_THRESHOLD : ℚ := 8/10

/-- Fuzzy match threshold for topics. -/
def TOPIC_THRESHOLD : ℚ := 1/2

/-- Fuzzy match threshold for aspects. -/
def ASPECT_THRESHOLD : ℚ := 6/10

/-- Fuzzy match threshold for key phrases. -/
def KEYPHRASE_THRESHOLD : ℚ := 4/10

/-- Fuzzy match threshold for metaphors and framing patterns. -/
def METAPHOR_THRESHOLD : ℚ := 1/2

/-- Fallback value for `next(...)` lookups over aspect lists; the lookups
in the evaluators always succeed because the matched strings are drawn
from the very lists being searched. -/
def dfltAspect : AspectSentiment :=
  { aspect := "", sentiment := "", intensity := 0, source_utterance_indices := [] }

/-- Fallback value for `next(...)` lookups over topic lists. -/
def dfltTopic : TopicDetection :=
  { name := "", timeline_position := "", relevance := 0 }

/-- Fallback value for `next(...)` lookups over entity lists. -/
def dfltEntity : NamedEntity := { name := "", entity_type := "" }

/-- Fallback value for `next(...)` lookups over key-phrase lists. -/
def dfltKeyPhrase : KeyPhrase := { phrase := "", relevance := 0 }

/-- Evaluate aspect extraction (`SurfaceEvaluator._eval_aspects`): fuzzy
match on aspect names at threshold 0.6, sentiment-polarity accuracy and
intensity MAE over matched pairs, utterance-index validation, intensity
distribution check. -/
def SurfaceEvaluator_eval_aspects (extracted ground_truth : SurfaceSignals)
    (max_idx : ℤ) : SignalMetrics :=
  let ext_names := extracted.aspects.map (fun a => a.aspect)
  let gt_names := ground_truth.aspects.map (fun a => a.aspect)
  let out := compute_fuzzy_precision_recall ext_names gt_names
    token_overlap_similarity ASPECT_THRESHOLD
  let matched := out.2.2.2
  let pairStats := matched.map (fun m =>
    let ext_aspect := (extracted.aspects.find? (fun a => a.aspect == m.1)).getD dfltAspect
    let gt_aspect := (ground_truth.aspects.find? (fun a => a.aspect == m.2.1)).getD dfltAspect
    ((if ext_aspect.sentiment == gt_aspect.sentiment then (1 : ℕ) else 0),
      |ext_aspect.intensity - gt_aspect.intensity|))
  let polarity_matches := (pairStats.map (fun x => x.1)).sum
  let intensity_errors := pairStats.map (fun x => x.2)
  let polarity_accuracy : Option ℚ :=
    if matched ≠ [] then some ((polarity_matches : ℚ) / (matched.length : ℚ)) else none
  let intensity_mae : Option ℚ :=
    if intensity_errors ≠ [] then some (intensity_errors.sum / (intensity_errors.length : ℚ))
    else none
  let idxIssues := extracted.aspects.flatMap (fun a =>
    let nm := a.aspect
    validate_utterance_indices a.source_utterance_indices max_idx s!"aspect:{nm}")
  let dist := check_score_distribution (extracted.aspects.map (fun a => a.intensity))
    "aspect_intensity"
  { signal_name := "aspects",
    precision := some out.1, recall' := some out.2.1, f1 := some out.2.2.1,
    count_extracted := ext_names.length, count_ground_truth := gt_names.length,
    accuracy := polarity_accuracy, mae := intensity_mae,
    structural_issues := idxIssues ++ dist.issues,
    score_distribution := some dist, matched_pairs := matched }

/-- Verify topic timeline positions against the transcript
(`structural_checks.check_timeline_consistency`): find the utterances
whose text contains the topic name (case-insensitively), take the median
mention index, and flag a mismatch with the labeled third of the call. -/
def check_timeline_consistency (topics : List TopicDetection)
    (utterances : List Utterance) : List String :=
  if utterances = [] then []
  else
    let total_turns := utterances.length
    topics.flatMap (fun topic =>
      let topic_lower := lowerStr topic.name
      let mention_indices := (utterances.filter (fun u =>
        topic_lower.data.IsInfix (lowerStr u.text).data)).map (fun u => u.turn_index)
      if mention_indices = [] then []
      else
        let sortedIdx := List.insertionSort (fun a b => a ≤ b) mention_indices
        let median_idx := sortedIdx.getD (mention_indices.length / 2) 0
        let third : ℚ := (total_turns : ℚ) / 3
        let expected :=
          if (median_idx : ℚ) < third then "early"
          else if (median_idx : ℚ) < 2 * third then "mid"
          else "late"
        if topic.timeline_position ≠ expected then
          let nm := topic.name
          let lbl := topic.timeline_position
          [s!"Topic {nm}: labeled {lbl} but mentions concentrate in {expected}"]
        else [])

/-- Evaluate topic extraction (`SurfaceEvaluator._eval_topics`): fuzzy
match on topic names at threshold 0.5, timeline-position accuracy and
relevance MAE over matched pairs, timeline-consistency check, relevance
distribution check. -/
def SurfaceEvaluator_eval_topics (extracted ground_truth : SurfaceSignals)
    (transcript : Transcript) : SignalMetrics :=
  let ext_names := extracted.topics.map (fun t => t.name)
  let gt_names := ground_truth.topics.map (fun t => t.name)
  let out := compute_fuzzy_precision_recall ext_names gt_names
    token_overlap_similarity TOPIC_THRESHOLD
  let matched := out.2.2.2
  let pairStats := matched.map (fun m =>
    let ext_topic := (extracted.topics.find? (fun t => t.name == m.1)).getD dfltTopic
    let gt_topic := (ground_truth.topics.find? (fun t => t.name == m.2.1)).getD dfltTopic
    ((if ext_topic.timeline_position == gt_topic.timeline_position then (1 : ℕ) else 0),
      |ext_topic.relevance - gt_topic.relevance|))
  let timeline_matches := (pairStats.map (fun x => x.1)).sum
  let relevance_errors := pairStats.map (fun x => x.2)
  let timeline_accuracy : Option ℚ :=
    if matched ≠ [] then some ((timeline_matches : ℚ) / (matched.length : ℚ)) else none
  let relevance_mae : Option ℚ :=
    if relevance_errors ≠ [] then some (relevance_errors.sum / (relevance_errors.length : ℚ))
    else none
  let tlIssues := check_timeline_consistency extracted.topics transcript.utterances
  let dist := check_score_distribution (extracted.topics.map (fun t => t.relevance))
    "topic_relevance"
  { signal_name := "topics",
    precision := some out.1, recall' := some out.2.1, f1 := some out.2.2.1,
    count_extracted := ext_names.length, count_ground_truth := gt_names.length,
    accuracy := timeline_accuracy, mae := relevance_mae,
    structural_issues := tlIssues ++ dist.issues,
    score_distribution := some dist, matched_pairs := matched }

/-- Evaluate entity extraction (`SurfaceEvaluator._eval_entities`): fuzzy
match on entity names at threshold 0.8 plus entity-type accuracy. -/
def SurfaceEvaluator_eval_entities (extracted ground_truth : SurfaceSignals) :
    SignalMetrics :=
  let ext_names := extracted.entities.map (fun e => e.name)
  let gt_names := ground_truth.entities.map (fun e => e.name)
  let out := compute_fuzzy_precision_recall ext_names gt_names
    token_overlap_similarity ENTITY_THRESHOLD
  let matched := out.2.2.2
  let type_matches := (matched.map (fun m =>
    let ext_ent := (extracted.entities.find? (fun e => e.name == m.1)).getD dfltEntity
    let gt_ent := (ground_truth.entities.find? (fun e => e.name == m.2.1)).getD dfltEntity
    if ext_ent.entity_type == gt_ent.entity_type then (1 : ℕ) else 0)).sum
  let type_accuracy : Option ℚ :=
    if matched ≠ [] then some ((type_matches : ℚ) / (matched.length : ℚ)) else none
  { signal_name := "entities",
    precision := some out.1, recall' := some out.2.1, f1 := some out.2.2.1,
    count_extracted := ext_names.length, count_ground_truth := gt_names.length,
    accuracy := type_accuracy, matched_pairs := matched }

/-- Evaluate key-phrase extraction (`SurfaceEvaluator._eval_key_phrases`):
fuzzy match on phrases at threshold 0.4 plus relevance MAE and relevance
distribution. -/
def SurfaceEvaluator_eval_key_phrases (extracted ground_truth : SurfaceSignals) :
    SignalMetrics :=
  let ext_phrases := extracted.key_phrases.map (fun kp => kp.phrase)
  let gt_phrases := ground_truth.key_phrases.map (fun kp => kp.phrase)
  let out := compute_fuzzy_precision_recall ext_phrases gt_phrases
    token_overlap_similarity KEYPHRASE_THRESHOLD
  let matched := out.2.2.2
  let relevance_errors := matched.map (fun m =>
    let ext_kp := (extracted.key_phrases.find? (fun kp => kp.phrase == m.1)).getD dfltKeyPhrase
    let gt_kp := (ground_truth.key_phrases.find? (fun kp => kp.phrase == m.2.1)).getD dfltKeyPhrase
    |ext_kp.relevance - gt_kp.relevance|)
  let relevance_mae : Option ℚ :=
    if relevance_errors ≠ [] then some (relevance_errors.sum / (relevance_errors.length : ℚ))
    else none
  let dist := check_score_distribution (extracted.key_phrases.map (fun kp => kp.relevance))
    "keyphrase_relevance"
  { signal_name := "key_phrases",
    precision := some out.1, recall' := some out.2.1, f1 := some out.2.2.1,
    count_extracted := ext_phrases.length, count_ground_truth := gt_phrases.length,
    mae := relevance_mae, score_distribution := some dist,
    structural_issues := dist.issues, matched_pairs := matched }

/-- Largest turn index of the transcript, `0` for an empty transcript
(`max((u.turn_index for u in transcript.utterances), default=0)`). -/
def transcriptMaxIdx (transcript : Transcript) : ℤ :=
  ((transcript.utterances.map (fun u => u.turn_index)).max?).getD 0

/-- Evaluate Layer 1 surface signal extraction
(`SurfaceEvaluator.evaluate`). -/
def SurfaceEvaluator_evaluate (extracted ground_truth : SurfaceSignals)
    (transcript : Transcript) : LayerReport :=
  let max_idx := transcriptMaxIdx transcript
  { layer_name := "Surface",
    signal_metrics :=
      [SurfaceEvaluator_eval_aspects extracted ground_truth max_idx,
       SurfaceEvaluator_eval_topics extracted ground_truth transcript,
       SurfaceEvaluator_eval_entities extracted ground_truth,
       SurfaceEvaluator_eval_key_phrases extracted ground_truth] }

/-- Evaluate objection triples
(`BehavioralEvaluator._eval_objection_triples`): exact-set
precision/recall/F1 on objection types; resolution-type and
outcome-resolved accuracy over ground-truth triples matched to the first
extracted triple of the same type; index validation; confidence
distribution. -/
def BehavioralEvaluator_eval_objection_triples
    (extracted ground_truth : BehavioralSignals) (max_idx : ℤ) : SignalMetrics :=
  let ext_types := (extracted.objection_triples.map (fun t => t.objection.type)).toFinset
  let gt_types := (ground_truth.objection_triples.map (fun t => t.objection.type)).toFinset
  let prf := precision_recall_f1 ext_types gt_types
  let matchedTriples := ground_truth.objection_triples.filterMap (fun gt_triple =>
    (extracted.objection_triples.find? (fun ext_triple =>
      ext_triple.objection.type == gt_triple.objection.type)).map
        (fun ext_triple => (gt_triple, ext_triple)))
  let matched_count := matchedTriples.length
  let resolution_matches := matchedTriples.countP (fun p =>
    match p.2.resolution, p.1.resolution with
    | some er, some gr => er.type == gr.type
    | _, _ => false)
  let outcome_matches := matchedTriples.countP (fun p =>
    p.2.outcome.resolved == p.1.outcome.resolved)
  let resolution_accuracy : Option ℚ :=
    if matched_count ≠ 0 then some ((resolution_matches : ℚ) / (matched_count : ℚ)) else none
  let outcome_accuracy : Option ℚ :=
    if matched_count ≠ 0 then some ((outcome_matches : ℚ) / (matched_count : ℚ)) else none
  let idxIssues := extracted.objection_triples.flatMap (fun t =>
    let obj_type := t.objection.type
    validate_utterance_indices t.objection.source_utterance_indices max_idx
      s!"objection:{obj_type}" ++
    (match t.resolution with
     | some res =>
       let res_type := res.type
       validate_utterance_indices res.source_utterance_indices max_idx
         s!"resolution:{res_type}"
     | none => []))
  let dist := check_score_distribution
    (extracted.objection_triples.map (fun t => t.confidence)) "objection_confidence"
  let combined_accuracy : Option ℚ :=
    match resolution_accuracy, outcome_accuracy with
    | some ra, some oa => some ((ra + oa) / 2)
    | _, _ => none
  { signal_name := "objection_triples",
    precision := some prf.1, recall' := some prf.2.1, f1 := some prf.2.2,
    count_extracted := extracted.objection_triples.length,
    count_ground_truth := ground_truth.objection_triples.length,
    accuracy := combined_accuracy,
    structural_issues := idxIssues ++ dist.issues,
    score_distribution := some dist }

/-- Evaluate buying-intent markers
(`BehavioralEvaluator._eval_buying_intent`): exact-set
precision/recall/F1 on marker types plus confidence distribution. -/
def BehavioralEvaluator_eval_buying_intent
    (extracted ground_truth : BehavioralSignals) : SignalMetrics :=
  let ext_types := (extracted.buying_intent_markers.map (fun m => m.type)).toFinset
  let gt_types := (ground_truth.buying_intent_markers.map (fun m => m.type)).toFinset
  let prf := precision_recall_f1 ext_types gt_types
  let dist := check_score_distribution
    (extracted.buying_intent_markers.map (fun m => m.confidence))
    "buying_intent_confidence"
  { signal_name := "buying_intent",
    precision := some prf.1, recall' := some prf.2.1, f1 := some prf.2.2,
    count_extracted := extracted.buying_intent_markers.length,
    count_ground_truth := ground_truth.buying_intent_markers.length,
    score_distribution := some dist, structural_issues := dist.issues }

/-- Evaluate competitive mentions
(`BehavioralEvaluator._eval_competitive_mentions`): exact-set
precision/recall/F1 on lowercased competitor names, sentiment accuracy on
first-matched competitors, index validation. -/
def BehavioralEvaluator_eval_competitive_mentions
    (extracted ground_truth : BehavioralSignals) (max_idx : ℤ) : SignalMetrics :=
  let ext_names := (extracted.competitive_mentions.map
    (fun cm => lowerStr cm.competitor)).toFinset
  let gt_names := (ground_truth.competitive_mentions.map
    (fun cm => lowerStr cm.competitor)).toFinset
  let prf := precision_recall_f1 ext_names gt_names
  let matchedMentions := ground_truth.competitive_mentions.filterMap (fun gt_cm =>
    (extracted.competitive_mentions.find? (fun ext_cm =>
      lowerStr ext_cm.competitor == lowerStr gt_cm.competitor)).map
        (fun ext_cm => (gt_cm, ext_cm)))
  let matched_count := matchedMentions.length
  let sentiment_matches := matchedMentions.countP (fun p =>
    p.2.sentiment == p.1.sentiment)
  let sentiment_accuracy : Option ℚ :=
    if matched_count ≠ 0 then some ((sentiment_matches : ℚ) / (matched_count : ℚ)) else none
  let idxIssues := extracted.competitive_mentions.flatMap (fun cm =>
    let nm := cm.competitor
    validate_utterance_indices cm.source_utterance_indices max_idx s!"competitor:{nm}")
  { signal_name := "competitive_mentions",
    precision := some prf.1, recall' := some prf.2.1, f1 := some prf.2.2,
    count_extracted := extracted.competitive_mentions.length,
    count_ground_truth := ground_truth.competitive_mentions.length,
    accuracy := sentiment_accuracy, structural_issues := idxIssues }

/-- Evaluate the engagement trajectory
(`BehavioralEvaluator._eval_engagement_trajectory`): exact-set
precision/recall/F1 on phases; per ground-truth phase matched to the
first extracted point of the same phase, ordinal agreement of
participation level, question depth and energy, averaged. -/
def BehavioralEvaluator_eval_engagement_trajectory
    (extracted ground_truth : BehavioralSignals) : SignalMetrics :=
  let ext_phases := (extracted.engagement_trajectory.map (fun p => p.phase)).toFinset
  let gt_phases := (ground_truth.engagement_trajectory.map (fun p => p.phase)).toFinset
  let prf := precision_recall_f1 ext_phases gt_phases
  let participation_scale := ["low", "moderate", "high"]
  let depth_scale := ["surface", "moderate", "deep"]
  let energy_scale := ["low", "medium", "high"]
  let agreements := ground_truth.engagement_trajectory.flatMap (fun gt_point =>
    match extracted.engagement_trajectory.find? (fun ext_point =>
        ext_point.phase == gt_point.phase) with
    | some ext_point =>
      [ordinal_agreement ext_point.participation_level gt_point.participation_level
        participation_scale,
       ordinal_agreement ext_point.question_depth gt_point.question_depth depth_scale,
       ordinal_agreement ext_point.energy gt_point.energy energy_scale]
    | none => [])
  let mean_agreement : Option ℚ :=
    if agreements ≠ [] then some (agreements.sum / (agreements.length : ℚ)) else none
  { signal_name := "engagement_trajectory",
    precision := some prf.1, recall' := some prf.2.1, f1 := some prf.2.2,
    count_extracted := extracted.engagement_trajectory.length,
    count_ground_truth := ground_truth.engagement_trajectory.length,
    ordinal_agreement := mean_agreement }

/-- Evaluate Layer 2 behavioral signal extraction
(`BehavioralEvaluator.evaluate`). -/
def BehavioralEvaluator_evaluate (extracted ground_truth : BehavioralSignals)
    (transcript : Transcript) : LayerReport :=
  let max_idx := transcriptMaxIdx transcript
  { layer_name := "Behavioral",
    signal_metrics :=
      [BehavioralEvaluator_eval_objection_triples extracted ground_truth max_idx,
       BehavioralEvaluator_eval_buying_intent extracted ground_truth,
       BehavioralEvaluator_eval_competitive_mentions extracted ground_truth max_idx,
       BehavioralEvaluator_eval_engagement_trajectory extracted ground_truth] }

/-- Evaluate the mental model (`PsychographicEvaluator._eval_mental_model`):
primary-match indicator as precision, recall and F1; accuracy averages in
the secondary match when the ground truth has a secondary; confidence
delta as MAE. (The evidence token-overlap similarity computed by the
source is dead code - it is not stored in the returned metrics.) -/
def PsychographicEvaluator_eval_mental_model
    (extracted ground_truth : PsychographicSignals) : SignalMetrics :=
  let primary_match : ℚ :=
    if extracted.mental_model.primary == ground_truth.mental_model.primary then 1 else 0
  let secondary_match : Option ℚ :=
    match ground_truth.mental_model.secondary with
    | some gs =>
      some (if extracted.mental_model.secondary == some gs then 1 else 0)
    | none => none
  let confidence_delta :=
    |extracted.mental_model.confidence - ground_truth.mental_model.confidence|
  let accuracy :=
    match secondary_match with
    | some sm => (primary_match + sm) / 2
    | none => primary_match
  { signal_name := "mental_model",
    precision := some primary_match, recall' := some primary_match,
    f1 := some primary_match,
    count_extracted := 1, count_ground_truth := 1,
    accuracy := some accuracy, mae := some confidence_delta }

/-- Evaluate persona indicators
(`PsychographicEvaluator._eval_persona_indicators`): exact-set
precision/recall/F1 on archetypes, confidence MAE over first-matched
archetypes, confidence distribution. -/
def PsychographicEvaluator_eval_persona_indicators
    (extracted ground_truth : PsychographicSignals) : SignalMetrics :=
  let ext_archetypes := (extracted.persona_indicators.map (fun pi => pi.archetype)).toFinset
  let gt_archetypes := (ground_truth.persona_indicators.map (fun pi => pi.archetype)).toFinset
  let prf := precision_recall_f1 ext_archetypes gt_archetypes
  let confidence_errors := ground_truth.persona_indicators.filterMap (fun gt_pi =>
    (extracted.persona_indicators.find? (fun ext_pi =>
      ext_pi.archetype == gt_pi.archetype)).map
        (fun ext_pi => |ext_pi.confidence - gt_pi.confidence|))
  let mae : Option ℚ :=
    if confidence_errors ≠ [] then
      some (confidence_errors.sum / (confidence_errors.length : ℚ))
    else none
  let dist := check_score_distribution
    (extracted.persona_indicators.map (fun pi => pi.confidence)) "persona_confidence"
  { signal_name := "persona_indicators",
    precision := some prf.1, recall' := some prf.2.1, f1 := some prf.2.2,
    count_extracted := extracted.persona_indicators.length,
    count_ground_truth := ground_truth.persona_indicators.length,
    mae := mae, score_distribution := some dist, structural_issues := dist.issues }

/-- Evaluate the language fingerprint
(`PsychographicEvaluator._eval_language_fingerprint`): exact-set
vocabulary overlap (lowercased), fuzzy metaphor and framing-pattern
overlap at threshold 0.5, averaged across the three sub-signals. (The
source filters `None` out of the three sub-metric lists before averaging,
but all three are always floats, so the lists always have length 3.) -/
def PsychographicEvaluator_eval_language_fingerprint
    (extracted ground_truth : PsychographicSignals) : SignalMetrics :=
  let ext_fp := extracted.language_fingerprint
  let gt_fp := ground_truth.language_fingerprint
  let ext_vocab := (ext_fp.distinctive_vocabulary.map lowerStr).toFinset
  let gt_vocab := (gt_fp.distinctive_vocabulary.map lowerStr).toFinset
  let vocab_prf := precision_recall_f1 ext_vocab gt_vocab
  let meta_out := compute_fuzzy_precision_recall ext_fp.metaphors gt_fp.metaphors
    token_overlap_similarity METAPHOR_THRESHOLD
  let frame_out := compute_fuzzy_precision_recall ext_fp.framing_patterns
    gt_fp.framing_patterns token_overlap_similarity METAPHOR_THRESHOLD
  let all_p := [vocab_prf.1, meta_out.1, frame_out.1]
  let all_r := [vocab_prf.2.1, meta_out.2.1, frame_out.2.1]
  let all_f := [vocab_prf.2.2, meta_out.2.2.1, frame_out.2.2.1]
  { signal_name := "language_fingerprint",
    precision := some (all_p.sum / (all_p.length : ℚ)),
    recall' := some (all_r.sum / (all_r.length : ℚ)),
    f1 := some (all_f.sum / (all_f.length : ℚ)),
    count_extracted := ext_fp.distinctive_vocabulary.length + ext_fp.metaphors.length +
      ext_fp.framing_patterns.length,
    count_ground_truth := gt_fp.distinctive_vocabulary.length + gt_fp.metaphors.length +
      gt_fp.framing_patterns.length,
    matched_pairs := meta_out.2.2.2 }

/-- Evaluate Layer 3 psychographic signal extraction
(`PsychographicEvaluator.evaluate`). -/
def PsychographicEvaluator_evaluate (extracted ground_truth : PsychographicSignals)
    (_transcript : Transcript) : LayerReport :=
  { layer_name := "Psychographic",
    signal_metrics :=
      [PsychographicEvaluator_eval_mental_model extracted ground_truth,
       PsychographicEvaluator_eval_persona_indicators extracted ground_truth,
       PsychographicEvaluator_eval_language_fingerprint extracted ground_truth] }

/-- Evaluate divergences (`MultimodalEvaluator._eval_divergences`):
exact-set precision/recall/F1 on utterance indices, divergence-type
accuracy on first-matched indices, index validation. (The index sets are
sets of integers; they are modelled as sets of their decimal strings so
the shared `Finset String` metric functions apply verbatim.) -/
def MultimodalEvaluator_eval_divergences
    (extracted ground_truth : MultimodalSignals) (max_idx : ℤ) : SignalMetrics :=
  let ext_indices := (extracted.divergences.map (fun d => toString d.utterance_index)).toFinset
  let gt_indices := (ground_truth.divergences.map (fun d => toString d.utterance_index)).toFinset
  let prf := precision_recall_f1 ext_indices gt_indices
  let matchedDivs := ground_truth.divergences.filterMap (fun gt_d =>
    (extracted.divergences.find? (fun ext_d =>
      ext_d.utterance_index == gt_d.utterance_index)).map (fun ext_d => (gt_d, ext_d)))
  let matched_count := matchedDivs.length
  let type_matches := matchedDivs.countP (fun p => p.2.type == p.1.type)
  let type_accuracy : Option ℚ :=
    if matched_count ≠ 0 then some ((type_matches : ℚ) / (matched_count : ℚ)) else none
  let idxIssues := validate_utterance_indices
    (extracted.divergences.map (fun d => d.utterance_index)) max_idx "divergence"
  { signal_name := "divergences",
    precision := some prf.1, recall' := some prf.2.1, f1 := some prf.2.2,
    count_extracted := extracted.divergences.length,
    count_ground_truth := ground_truth.divergences.length,
    accuracy := type_accuracy, structural_issues := idxIssues }

/-- Evaluate composite sentiments
(`MultimodalEvaluator._eval_composite_sentiments`): exact-set
precision/recall/F1 on utterance indices plus adjusted-polarity accuracy
on first-matched indices. -/
def MultimodalEvaluator_eval_composite_sentiments
    (extracted ground_truth : MultimodalSignals) : SignalMetrics :=
  let ext_indices := (extracted.composite_sentiments.map
    (fun cs => toString cs.utterance_index)).toFinset
  let gt_indices := (ground_truth.composite_sentiments.map
    (fun cs => toString cs.utterance_index)).toFinset
  let prf := precision_recall_f1 ext_indices gt_indices
  let matchedCs := ground_truth.composite_sentiments.filterMap (fun gt_cs =>
    (extracted.composite_sentiments.find? (fun ext_cs =>
      ext_cs.utterance_index == gt_cs.utterance_index)).map (fun ext_cs => (gt_cs, ext_cs)))
  let matched_count := matchedCs.length
  let polarity_matches := matchedCs.countP (fun p =>
    p.2.adjusted_polarity == p.1.adjusted_polarity)
  let polarity_accuracy : Option ℚ :=
    if matched_count ≠ 0 then some ((polarity_matches : ℚ) / (matched_count : ℚ)) else none
  { signal_name := "composite_sentiments",
    precision := some prf.1, recall' := some prf.2.1, f1 := some prf.2.2,
    count_extracted := extracted.composite_sentiments.length,
    count_ground_truth := ground_truth.composite_sentiments.length,
    accuracy := polarity_accuracy }

/-- Evaluate multimodal divergence detection
(`MultimodalEvaluator.evaluate`): `none` when neither side has multimodal
data; a single-`divergences` hallucination report (P=0, R=1) when only
the extraction has it; a single-`divergences` miss report (P=0, R=0) when
only the ground truth has it; the full two-signal report otherwise. -/
def MultimodalEvaluator_evaluate (extracted ground_truth : Option MultimodalSignals)
    (transcript : Transcript) : Option LayerReport :=
  match ground_truth, extracted with
  | none, none => none
  | none, extOpt =>
    some { layer_name := "Multimodal",
           signal_metrics :=
             [{ signal_name := "divergences",
                precision := some 0, recall' := some 1, f1 := some 0,
                count_extracted :=
                  (match extOpt with
                   | some ext => ext.divergences.length
                   | none => 0),
                count_ground_truth := 0,
                structural_issues := ["Multimodal signals produced but not expected"] }] }
  | some gt, none =>
    some { layer_name := "Multimodal",
           signal_metrics :=
             [{ signal_name := "divergences",
                precision := some 0, recall' := some 0, f1 := some 0,
                count_extracted := 0,
                count_ground_truth := gt.divergences.length,
                structural_issues := ["Multimodal signals expected but not produced"] }] }
  | some gt, some ext =>
    let max_idx := transcriptMaxIdx transcript
    some { layer_name := "Multimodal",
           signal_metrics :=
             [MultimodalEvaluator_eval_divergences ext gt max_idx,
              MultimodalEvaluator_eval_composite_sentiments ext gt] }

/-! ### Runner (`evaluation/runner.py`) -/

/-- External LLM-as-judge interface (`llm_judge.LLMJudge`), an injectable
oracle (spec section 6). Each scorer receives the typed extracted object
and the matched ground-truth object (the source serializes both to JSON
and `"\x7b\x7d"` for a missing ground-truth match, modelled as `Option`). -/
structure LLMJudge where
  score_aspect_quality : AspectSentiment → AspectSentiment → JudgeScore
  score_objection_triple : ObjectionTriple → Option ObjectionTriple → JudgeScore
  score_competitive_context : CompetitiveMention → Option CompetitiveMention → JudgeScore
  score_persona_reasoning : PersonaIndicator → Option PersonaIndicator → JudgeScore
  score_framing_patterns : LanguageFingerprint → LanguageFingerprint → JudgeScore
  score_divergence_interpretation : DivergenceSignal → Option DivergenceSignal → JudgeScore

/-- Mean judge score update shared by the branches of `_add_judge_scores`:
append the new scores and, when the resulting list is nonempty, set
`mean_judge_score` to its arithmetic mean. -/
def withJudgeScores (m : SignalMetrics) (newScores : List JudgeScore) : SignalMetrics :=
  let js := m.judge_scores ++ newScores
  { m with judge_scores := js,
           mean_judge_score :=
             if js = [] then m.mean_judge_score
             else some (((js.map (fun s => s.score)).sum : ℚ) / (js.length : ℚ)) }

/-- Judge pass over the surface layer (`runner._add_judge_scores`, aspect
quality): one judge call per matched aspect pair, capped at 5. -/
def addJudgeScoresSurface (judge : LLMJudge) (extracted ground_truth : ExtractionResult)
    (surface_report : LayerReport) : LayerReport :=
  { surface_report with
    signal_metrics := surface_report.signal_metrics.map (fun m =>
      if m.signal_name == "aspects" then
        withJudgeScores m ((m.matched_pairs.take 5).map (fun mp =>
          judge.score_aspect_quality
            ((extracted.surface.aspects.find? (fun a => a.aspect == mp.1)).getD dfltAspect)
            ((ground_truth.surface.aspects.find? (fun a => a.aspect == mp.2.1)).getD dfltAspect)))
      else m) }

/-- Judge pass over the behavioral layer (`runner._add_judge_scores`):
objection triples capped at 5 calls, competitive mentions at 3; the
ground-truth argument is the first triple/mention with the same
objection type / lowercased competitor, if any. -/
def addJudgeScoresBehavioral (judge : LLMJudge) (extracted ground_truth : ExtractionResult)
    (behavioral_report : LayerReport) : LayerReport :=
  { behavioral_report with
    signal_metrics := behavioral_report.signal_metrics.map (fun m =>
      if m.signal_name == "objection_triples" then
        withJudgeScores m ((extracted.behavioral.objection_triples.take 5).map (fun ext_t =>
          judge.score_objection_triple ext_t
            (ground_truth.behavioral.objection_triples.find? (fun t =>
              t.objection.type == ext_t.objection.type))))
      else if m.signal_name == "competitive_mentions" then
        withJudgeScores m ((extracted.behavioral.competitive_mentions.take 3).map (fun ext_cm =>
          judge.score_competitive_context ext_cm
            (ground_truth.behavioral.competitive_mentions.find? (fun cm =>
              lowerStr cm.competitor == lowerStr ext_cm.competitor))))
      else m) }

/-- Judge pass over the psychographic layer (`runner._add_judge_scores`):
one call per extracted persona indicator - the source has no `[:5]` cap on
this loop - and a single framing-pattern call whose score becomes the mean
directly. -/
def addJudgeScoresPsychographic (judge : LLMJudge)
    (extracted ground_truth : ExtractionResult)
    (psychographic_report : LayerReport) : LayerReport :=
  { psychographic_report with
    signal_metrics := psychographic_report.signal_metrics.map (fun m =>
      if m.signal_name == "persona_indicators" then
        withJudgeScores m (extracted.psychographic.persona_indicators.map (fun ext_pi =>
          judge.score_persona_reasoning ext_pi
            (ground_truth.psychographic.persona_indicators.find? (fun pi =>
              pi.archetype == ext_pi.archetype))))
      else if m.signal_name == "language_fingerprint" then
        let score := judge.score_framing_patterns
          extracted.psychographic.language_fingerprint
          ground_truth.psychographic.language_fingerprint
        { m with judge_scores := m.judge_scores ++ [score],
                 mean_judge_score := some (score.score : ℚ) }
      else m) }

/-- Judge pass over the multimodal layer (`runner._add_judge_scores`):
only when the report exists and both sides have multimodal data;
divergence interpretation capped at 5 calls. -/
def addJudgeScoresMultimodal (judge : LLMJudge)
    (extracted_mm ground_truth_mm : Option MultimodalSignals)
    (multimodal_report : Option LayerReport) : Option LayerReport :=
  match multimodal_report, extracted_mm, ground_truth_mm with
  | some rep, some ext_mm, some gt_mm =>
    some { rep with
      signal_metrics := rep.signal_metrics.map (fun m =>
        if m.signal_name == "divergences" then
          withJudgeScores m ((ext_mm.divergences.take 5).map (fun ext_d =>
            judge.score_divergence_interpretation ext_d
              (gt_mm.divergences.find? (fun d =>
                d.utterance_index == ext_d.utterance_index))))
        else m) }
  | rep, _, _ => rep

/-- Baseline pass (`runner._add_baselines`), modelled abstractly: the NLP
baseline computations are external oracles (spec sections 1 and 6); the
pass only ever sets the `baseline_agreement` field of the `entities`,
`key_phrases` and `aspects` surface metrics. -/
def addBaselines (baseline_oracle : SignalMetrics → Option ℚ)
    (surface_report : LayerReport) : LayerReport :=
  { surface_report with
    signal_metrics := surface_report.signal_metrics.map (fun m =>
      if m.signal_name == "entities" ∨ m.signal_name == "key_phrases" ∨
          m.signal_name == "aspects" then
        { m with baseline_agreement := baseline_oracle m }
      else m) }

/-- Evaluate a single extraction result against ground truth
(`runner.evaluate`): always run the four core evaluators, then optionally
the baseline pass and the LLM-as-judge pass. -/
def evaluate (extracted ground_truth : ExtractionResult) (transcript : Transcript)
    (skip_llm_judge skip_baselines : Bool) (judge : LLMJudge)
    (baseline_oracle : SignalMetrics → Option ℚ) : EvaluationReport :=
  let surface_report := SurfaceEvaluator_evaluate extracted.surface ground_truth.surface
    transcript
  let behavioral_report := BehavioralEvaluator_evaluate extracted.behavioral
    ground_truth.behavioral transcript
  let psychographic_report := PsychographicEvaluator_evaluate extracted.psychographic
    ground_truth.psychographic transcript
  let multimodal_report := MultimodalEvaluator_evaluate extracted.multimodal
    ground_truth.multimodal transcript
  let surface_report :=
    if skip_baselines then surface_report else addBaselines baseline_oracle surface_report
  let surface_report :=
    if skip_llm_judge then surface_report
    else addJudgeScoresSurface judge extracted ground_truth surface_report
  let behavioral_report :=
    if skip_llm_judge then behavioral_report
    else addJudgeScoresBehavioral judge extracted ground_truth behavioral_report
  let psychographic_report :=
    if skip_llm_judge then psychographic_report
    else addJudgeScoresPsychographic judge extracted ground_truth psychographic_report
  let multimodal_report :=
    if skip_llm_judge then multimodal_report
    else addJudgeScoresMultimodal judge extracted.multimodal ground_truth.multimodal
      multimodal_report
  { transcript_id := extracted.transcript_id,
    surface := surface_report,
    behavioral := behavioral_report,
    psychographic := psychographic_report,
    multimodal := multimodal_report }

/-! ### Concrete fixtures used by decidable instantiations -/

/-- A constant judge oracle returning score 3 for every call. -/
def constJudge : LLMJudge :=
  ⟨fun _ _ => ⟨3, ""⟩, fun _ _ => ⟨3, ""⟩, fun _ _ => ⟨3, ""⟩,
   fun _ _ => ⟨3, ""⟩, fun _ _ => ⟨3, ""⟩, fun _ _ => ⟨3, ""⟩⟩

/-- Empty surface layer. -/
def emptySurfaceSignals : SurfaceSignals := ⟨[], [], [], []⟩

/-- Empty behavioral layer. -/
def emptyBehavioralSignals : BehavioralSignals := ⟨[], [], [], []⟩

/-- A minimal mental model value. -/
def mentalModelFixture : MentalModel := ⟨"efficiency", none, [], 1/2, ""⟩

/-- A persona indicator with the given archetype. -/
def personaFixture (a : String) : PersonaIndicator := ⟨a, 1/2, [], ""⟩

/-- A psychographic layer with six persona indicators. -/
def psychographicSixPersonas : PsychographicSignals :=
  ⟨mentalModelFixture,
   [personaFixture "a", personaFixture "b", personaFixture "c",
    personaFixture "d", personaFixture "e", personaFixture "f"],
   ⟨[], [], []⟩⟩

/-- A psychographic layer with no persona indicators. -/
def psychographicNoPersonas : PsychographicSignals :=
  ⟨mentalModelFixture, [], ⟨[], [], []⟩⟩

/-- An extraction result carrying six persona indicators and nothing else. -/
def extractionSixPersonas : ExtractionResult :=
  ⟨"t1", emptySurfaceSignals, emptyBehavioralSignals, psychographicSixPersonas, none⟩

/-- A ground-truth extraction with no persona indicators. -/
def extractionNoPersonas : ExtractionResult :=
  ⟨"t1", emptySurfaceSignals, emptyBehavioralSignals, psychographicNoPersonas, none⟩

/-- The persona-indicators metric after the psychographic judge pass on the
six-persona fixture. -/
def personaPassMetric : SignalMetrics :=
  (addJudgeScoresPsychographic constJudge extractionSixPersonas extractionNoPersonas
    (PsychographicEvaluator_evaluate extractionSixPersonas.psychographic
      extractionNoPersonas.psychographic ⟨[]⟩)).signal_metrics.getD 1
    { signal_name := "" }

/-! ### Theorems -/

lemma precision_nonneg (A B : Finset String) : 0 ≤ precision A B := by
  unfold precision
  split
  · split <;> norm_num
  · positivity

lemma precision_le_one (A B : Finset String) : precision A B ≤ 1 := by
  unfold precision
  split
  · split <;> norm_num
  · rename_i hA
    have hpos : (0 : ℚ) < A.card := by
      exact_mod_cast Finset.card_pos.mpr (Finset.nonempty_iff_ne_empty.mpr hA)
    rw [div_le_one hpos]
    exact_mod_cast Finset.card_le_card Finset.inter_subset_left

lemma recall'_nonneg (A B : Finset String) : 0 ≤ recall' A B := by
  unfold recall'
  split
  · norm_num
  · positivity

lemma recall'_le_one (A B : Finset String) : recall' A B ≤ 1 := by
  unfold recall'
  split
  · norm_num
  · rename_i hB
    have hpos : 0 < B.card := Finset.card_pos.mpr (Finset.nonempty_iff_ne_empty.mpr hB)
    rw [div_le_one (by exact_mod_cast hpos)]
    exact_mod_cast Finset.card_le_card (Finset.inter_subset_right)

/-- C3: for all finite sets `A`, `B`, `precision` and `recall` lie in
`[0,1]`; `precision A B = |A ∩ B| / |A|` with `precision ∅ ∅ = 1` and
`precision ∅ B = 0` for nonempty `B`; `recall A B = |A ∩ B| / |B|` with
`recall A ∅ = 1` for every `A`; `f1` is the harmonic mean `2pr/(p+r)`
with `f1 = 0` when `p + r = 0`; and the F1 component of
`precision_recall_f1` is exactly `f1` of its precision and recall. -/
theorem C3_metrics_precision_recall_f1 :
    (∀ A B : Finset String, 0 ≤ precision A B ∧ precision A B ≤ 1) ∧
    (∀ A B : Finset String, 0 ≤ recall' A B ∧ recall' A B ≤ 1) ∧
    (∀ A B : Finset String, A ≠ ∅ → precision A B = ((A ∩ B).card : ℚ) / A.card) ∧
    (precision ∅ ∅ = 1) ∧
    (∀ B : Finset String, B ≠ ∅ → precision ∅ B = 0) ∧
    (∀ A B : Finset String, B ≠ ∅ → recall' A B = ((A ∩ B).card : ℚ) / B.card) ∧
    (∀ A : Finset String, recall' A ∅ = 1) ∧
    (∀ p r : ℚ, p + r = 0 → f1 p r = 0) ∧
    (∀ p r : ℚ, p + r ≠ 0 → f1 p r = 2 * p * r / (p + r)) ∧
    (∀ A B : Finset String, precision_recall_f1 A B =
      (precision A B, recall' A B, f1 (precision A B) (recall' A B))) := by
  refine ⟨fun A B => ⟨precision_nonneg A B, precision_le_one A B⟩,
    fun A B => ⟨recall'_nonneg A B, recall'_le_one A B⟩,
    fun A B hA => by simp [precision, hA],
    by simp [precision],
    fun B hB => by simp [precision, hB],
    fun A B hB => by simp [recall', hB],
    fun A => by simp [recall'],
    fun p r h => by simp [f1, h],
    fun p r h => by simp [f1, h],
    fun A B => rfl⟩

/-- Witness for C3 at concrete sets. -/
theorem C3_witness :
    precision {"a"} {"b"} = ((({"a"} : Finset String) ∩ {"b"}).card : ℚ) /
      ({"a"} : Finset String).card ∧
    precision ∅ {"b"} = 0 ∧
    recall' {"a", "b"} {"b"} = ((({"a", "b"} : Finset String) ∩ {"b"}).card : ℚ) /
      ({"b"} : Finset String).card ∧
    f1 0 0 = 0 ∧
    f1 (1/2) (1/2) = 2 * (1/2) * (1/2) / (1/2 + 1/2) :=
  ⟨C3_metrics_precision_recall_f1.2.2.1 {"a"} {"b"} (by decide),
   C3_metrics_precision_recall_f1.2.2.2.2.1 {"b"} (by decide),
   C3_metrics_precision_recall_f1.2.2.2.2.2.1 {"a", "b"} {"b"} (by decide),
   C3_metrics_precision_recall_f1.2.2.2.2.2.2.2.1 0 0 (by norm_num),
   C3_metrics_precision_recall_f1.2.2.2.2.2.2.2.2.1 (1/2) (1/2) (by norm_num)⟩

/-- C9: `ordinal_agreement` equals `1 - |index(predicted) - index(actual)|
/ (len(scale) - 1)` when both values are in the scale (and the scale has
at least two elements), returns `0` when either value is missing from the
scale, returns `1` on a one-element scale, is `1` on equal in-scale
values, and is antitone in the index distance. -/
theorem C9_ordinal_agreement_spec :
    (∀ (p a : String) (scale : List String), p ∈ scale → a ∈ scale →
      2 ≤ scale.length →
      ordinal_agreement p a scale =
        1 - (|(scale.indexOf p : ℤ) - (scale.indexOf a : ℤ)| : ℚ) /
          ((scale.length : ℚ) - 1)) ∧
    (∀ (p a : String) (scale : List String), p ∉ scale ∨ a ∉ scale →
      ordinal_agreement p a scale = 0) ∧
    (∀ (p a : String) (scale : List String), p ∈ scale → a ∈ scale →
      scale.length = 1 → ordinal_agreement p a scale = 1) ∧
    (∀ (x : String) (scale : List String), x ∈ scale →
      ordinal_agreement x x scale = 1) ∧
    (∀ (p₁ a₁ p₂ a₂ : String) (scale : List String),
      p₁ ∈ scale → a₁ ∈ scale → p₂ ∈ scale → a₂ ∈ scale →
      |(scale.indexOf p₁ : ℤ) - (scale.indexOf a₁ : ℤ)| ≤
        |(scale.indexOf p₂ : ℤ) - (scale.indexOf a₂ : ℤ)| →
      ordinal_agreement p₂ a₂ scale ≤ ordinal_agreement p₁ a₁ scale) := by
  have hformula : ∀ (p a : String) (scale : List String), p ∈ scale → a ∈ scale →
      2 ≤ scale.length →
      ordinal_agreement p a scale =
        1 - (|(scale.indexOf p : ℤ) - (scale.indexOf a : ℤ)| : ℚ) /
          ((scale.length : ℚ) - 1) := by
    intro p a scale hp ha hlen
    have hne : ¬(p ∉ scale ∨ a ∉ scale) := by
      push_neg
      exact ⟨hp, ha⟩
    have hmd : ((scale.length : ℤ) - 1) ≠ 0 := by omega
    unfold ordinal_agreement
    rw [if_neg hne, if_neg hmd]
    push_cast
    ring
  refine ⟨hformula, ?_, ?_, ?_, ?_⟩
  · intro p a scale h
    unfold ordinal_agreement
    rw [if_pos h]
  · intro p a scale hp ha hlen
    have hne : ¬(p ∉ scale ∨ a ∉ scale) := by
      push_neg
      exact ⟨hp, ha⟩
    have hmd : ((scale.length : ℤ) - 1) = 0 := by omega
    unfold ordinal_agreement
    rw [if_neg hne, if_pos hmd]
  · intro x scale hx
    have hne : ¬(x ∉ scale ∨ x ∉ scale) := by
      push_neg
      exact ⟨hx, hx⟩
    unfold ordinal_agreement
    rw [if_neg hne]
    by_cases hmd : ((scale.length : ℤ) - 1) = 0
    · simp [hmd]
    · simp [hmd]
  · intro p₁ a₁ p₂ a₂ scale hp₁ ha₁ hp₂ ha₂ hdist
    have hlen : 0 < scale.length := List.length_pos.mpr (List.ne_nil_of_mem hp₁)
    rcases Nat.lt_or_ge scale.length 2 with hl | hl
    · have h1 : scale.length = 1 := by omega
      have hne₁ : ¬(p₁ ∉ scale ∨ a₁ ∉ scale) := by push_neg; exact ⟨hp₁, ha₁⟩
      have hne₂ : ¬(p₂ ∉ scale ∨ a₂ ∉ scale) := by push_neg; exact ⟨hp₂, ha₂⟩
      have hmd : ((scale.length : ℤ) - 1) = 0 := by omega
      unfold ordinal_agreement
      rw [if_neg hne₁, if_neg hne₂, if_pos hmd, if_pos hmd]
    · rw [hformula p₁ a₁ scale hp₁ ha₁ hl, hformula p₂ a₂ scale hp₂ ha₂ hl]
      have hden : (0 : ℚ) < (scale.length : ℚ) - 1 := by
        have : (2 : ℚ) ≤ (scale.length : ℚ) := by exact_mod_cast hl
        linarith
      have hcast : ((|(scale.indexOf p₁ : ℤ) - (scale.indexOf a₁ : ℤ)| : ℚ)) ≤
          ((|(scale.indexOf p₂ : ℤ) - (scale.indexOf a₂ : ℤ)| : ℚ)) := by
        exact_mod_cast hdist
      have hdd := (div_le_div_iff_of_pos_right hden).mpr hcast
      linarith

/-- Witness for C9 on the engagement participation scale. -/
theorem C9_witness :
    ordinal_agreement "low" "high" ["low", "moderate", "high"] =
      1 - (|((["low", "moderate", "high"].indexOf "low" : ℤ)) -
        ((["low", "moderate", "high"].indexOf "high" : ℤ))| : ℚ) /
        (((["low", "moderate", "high"] : List String).length : ℚ) - 1) ∧
    ordinal_agreement "x" "low" ["low", "moderate", "high"] = 0 ∧
    ordinal_agreement "solo" "solo" ["solo"] = 1 ∧
    ordinal_agreement "moderate" "moderate" ["low", "moderate", "high"] = 1 ∧
    ordinal_agreement "low" "high" ["low", "moderate", "high"] ≤
      ordinal_agreement "low" "moderate" ["low", "moderate", "high"] :=
  ⟨C9_ordinal_agreement_spec.1 "low" "high" _ (by decide) (by decide) (by decide),
   C9_ordinal_agreement_spec.2.1 "x" "low" _ (by decide),
   C9_ordinal_agreement_spec.2.2.1 "solo" "solo" _ (by decide) (by decide) (by decide),
   C9_ordinal_agreement_spec.2.2.2.1 "moderate" _ (by decide),
   C9_ordinal_agreement_spec.2.2.2.2 "low" "moderate" "low" "high" _
     (by decide) (by decide) (by decide) (by decide) (by decide)⟩

lemma sds_replicate (c : ℚ) (n : ℕ) (hn : n ≠ 0) :
    score_distribution_stats (List.replicate n c) =
      { mean := some (round4 c), variance := some 0,
        buckets := bucket_counts (List.replicate n c), n := n } := by
  have hne : List.replicate n c ≠ [] := fun h => hn (by simpa using congrArg List.length h)
  have hcast : (n : ℚ) ≠ 0 := Nat.cast_ne_zero.mpr hn
  unfold score_distribution_stats
  rw [if_neg hne]
  simp only [List.length_replicate, List.sum_replicate, List.map_replicate, nsmul_eq_mul,
    mul_div_cancel_left₀ c hcast, sub_self]
  norm_num

/-- C8: `check_score_distribution` flags a constant list of `n ≥ 3`
identical scores with the low-variance issue, flags a list of `n ≥ 5`
scores all in `[0.8, 1.0)` with the single-bucket issue, and
`score_distribution_stats` of the empty list is the explicit empty result
(absent mean and deviation, empty buckets, `n = 0`). -/
theorem C8_check_score_distribution_spec :
    (∀ (c : ℚ) (lbl : String) (n : ℕ), 3 ≤ n →
      lowVarianceMsg lbl ∈ (check_score_distribution (List.replicate n c) lbl).issues) ∧
    (∀ (scores : List ℚ) (lbl : String), 5 ≤ scores.length →
      (∀ s ∈ scores, 4/5 ≤ s ∧ s < 1) →
      singleBucketMsg lbl scores.length "0.8-1.0" ∈
        (check_score_distribution scores lbl).issues) ∧
    score_distribution_stats [] =
      { mean := none, variance := none, buckets := [], n := 0 } := by
  refine ⟨?_, ?_, rfl⟩
  · intro c lbl n h3
    have hn : n ≠ 0 := by omega
    unfold check_score_distribution
    rw [sds_replicate c n hn]
    simp only [Option.getD_some]
    rw [if_pos h3]
    have hvar : (0 : ℚ) < (1/20) ^ 2 := by norm_num
    simp [hvar]
  · intro scores lbl h5 hall
    have hne : scores ≠ [] := by
      intro h
      rw [h] at h5
      simp at h5
    have h3 : 3 ≤ scores.length := by omega
    have hpos : 0 < scores.length := by omega
    have hb5 : scores.countP (fun s => decide (4/5 ≤ s)) = scores.length := by
      rw [List.countP_eq_length]
      intro a ha
      simpa using (hall a ha).1
    have hb1 : scores.countP (fun s => decide (s < 1/5)) = 0 := by
      rw [List.countP_eq_zero]
      intro a ha
      have := (hall a ha).1
      simp only [decide_eq_true_eq]
      intro hc
      linarith
    have hb2 : scores.countP (fun s => decide (1/5 ≤ s ∧ s < 2/5)) = 0 := by
      rw [List.countP_eq_zero]
      intro a ha
      have := (hall a ha).1
      simp only [decide_eq_true_eq, not_and]
      intro _ hc
      linarith
    have hb3 : scores.countP (fun s => decide (2/5 ≤ s ∧ s < 3/5)) = 0 := by
      rw [List.countP_eq_zero]
      intro a ha
      have := (hall a ha).1
      simp only [decide_eq_true_eq, not_and]
      intro _ hc
      linarith
    have hb4 : scores.countP (fun s => decide (3/5 ≤ s ∧ s < 4/5)) = 0 := by
      rw [List.countP_eq_zero]
      intro a ha
      have := (hall a ha).1
      simp only [decide_eq_true_eq, not_and]
      intro _ hc
      linarith
    have hbuckets : bucket_counts scores =
        [("0.0-0.2", 0), ("0.2-0.4", 0), ("0.4-0.6", 0), ("0.6-0.8", 0),
         ("0.8-1.0", scores.length)] := by
      unfold bucket_counts
      rw [hb1, hb2, hb3, hb4, hb5]
    unfold check_score_distribution score_distribution_stats
    rw [if_neg hne]
    simp only [hbuckets]
    rw [if_pos h3]
    simp [List.filter, hpos, Nat.pos_iff_ne_zero.mp hpos, h5]

/-- Witness for C8 at concrete score lists. -/
theorem C8_witness :
    lowVarianceMsg "aspect_intensity" ∈
      (check_score_distribution (List.replicate 3 (7/10)) "aspect_intensity").issues ∧
    singleBucketMsg "persona_confidence" 5 "0.8-1.0" ∈
      (check_score_distribution [4/5, 9/10, 9/10, 9/10, 19/20] "persona_confidence").issues :=
  ⟨C8_check_score_distribution_spec.1 (7/10) "aspect_intensity" 3 (by norm_num),
   C8_check_score_distribution_spec.2.1 [4/5, 9/10, 9/10, 9/10, 19/20]
     "persona_confidence" (by decide) (by decide)⟩

/-- C4: `MultimodalEvaluator.evaluate` returns no report at all when
neither side has multimodal data; a hallucination report with precision 0,
recall 1 and a non-empty structural-issue string when only the extraction
has multimodal data; and a miss report with precision 0, recall 0, F1 0
and a non-empty structural-issue list when only the ground truth has
multimodal data. -/
theorem C4_multimodal_presence_cases :
    (∀ t : Transcript, MultimodalEvaluator_evaluate none none t = none) ∧
    (∀ (ext : MultimodalSignals) (t : Transcript), ∃ rep : LayerReport,
      MultimodalEvaluator_evaluate (some ext) none t = some rep ∧
      rep.signal_metrics.length = 1 ∧
      ∀ m ∈ rep.signal_metrics, m.precision = some 0 ∧ m.recall' = some 1 ∧
        m.structural_issues ≠ [] ∧ ∀ s ∈ m.structural_issues, s ≠ "") ∧
    (∀ (gt : MultimodalSignals) (t : Transcript), ∃ rep : LayerReport,
      MultimodalEvaluator_evaluate none (some gt) t = some rep ∧
      rep.signal_metrics.length = 1 ∧
      ∀ m ∈ rep.signal_metrics, m.precision = some 0 ∧ m.recall' = some 0 ∧
        m.f1 = some 0 ∧ m.structural_issues ≠ [] ∧
        ∀ s ∈ m.structural_issues, s ≠ "") := by
  refine ⟨fun t => rfl, fun ext t => ⟨_, rfl, rfl, ?_⟩, fun gt t => ⟨_, rfl, rfl, ?_⟩⟩
  · intro m hm
    rw [List.mem_singleton] at hm
    subst hm
    refine ⟨rfl, rfl, by simp, ?_⟩
    intro s hs
    rw [List.mem_singleton] at hs
    subst hs
    decide
  · intro m hm
    rw [List.mem_singleton] at hm
    subst hm
    refine ⟨rfl, rfl, rfl, by simp, ?_⟩
    intro s hs
    rw [List.mem_singleton] at hs
    subst hs
    decide

/-- Witness for C4 at concrete inputs. -/
theorem C4_witness :
    MultimodalEvaluator_evaluate none none ⟨[]⟩ = none ∧
    (∃ rep : LayerReport,
      MultimodalEvaluator_evaluate (some ⟨[], []⟩) none ⟨[]⟩ = some rep ∧
      rep.signal_metrics.length = 1 ∧
      ∀ m ∈ rep.signal_metrics, m.precision = some 0 ∧ m.recall' = some 1 ∧
        m.structural_issues ≠ [] ∧ ∀ s ∈ m.structural_issues, s ≠ "") ∧
    (∃ rep : LayerReport,
      MultimodalEvaluator_evaluate none (some ⟨[], []⟩) ⟨[]⟩ = some rep ∧
      rep.signal_metrics.length = 1 ∧
      ∀ m ∈ rep.signal_metrics, m.precision = some 0 ∧ m.recall' = some 0 ∧
        m.f1 = some 0 ∧ m.structural_issues ≠ [] ∧
        ∀ s ∈ m.structural_issues, s ≠ "") :=
  ⟨C4_multimodal_presence_cases.1 ⟨[]⟩,
   C4_multimodal_presence_cases.2.1 ⟨[], []⟩ ⟨[]⟩,
   C4_multimodal_presence_cases.2.2 ⟨[], []⟩ ⟨[]⟩⟩

/-- Spec-side definition for C6 ("arithmetic mean of all F1 values
present across all layers; signals without F1 are excluded, not
zero-filled"): the mean of the `some` entries of a list of optional F1
values, absent when none are present. -/
def meanOfPresent (l : List (Option ℚ)) : Option ℚ :=
  let present := l.reduceOption
  if present = [] then none else some (present.sum / (present.length : ℚ))

/-- C6: `overall_f1` is exactly the mean of the F1 values present across
all the report's signal metrics (multimodal included when present), and
appending a signal whose F1 is absent leaves `overall_f1` unchanged -
absent F1 values are excluded from numerator and count, never treated as
zero. -/
theorem C6_overall_f1_mean_of_present :
    (∀ r : EvaluationReport,
      r.overall_f1 = meanOfPresent (r.all_signal_metrics.map (fun m => m.f1))) ∧
    (∀ (r : EvaluationReport) (m : SignalMetrics), m.f1 = none →
      EvaluationReport.overall_f1
        { r with surface := { r.surface with
            signal_metrics := r.surface.signal_metrics ++ [m] } } = r.overall_f1) := by
  constructor
  · intro r
    unfold EvaluationReport.overall_f1 meanOfPresent
    rw [List.reduceOption, List.filterMap_map]
    rfl
  · intro r m hm
    unfold EvaluationReport.overall_f1
    simp [EvaluationReport.all_signal_metrics, List.filterMap_append, hm]

/-- Witness for C6 on a one-signal report extended by an F1-less signal. -/
theorem C6_witness :
    EvaluationReport.overall_f1
      { transcript_id := "t",
        surface :=
          { layer_name := "Surface",
            signal_metrics := [{ signal_name := "aspects", f1 := some (1/2) }] ++
              [{ signal_name := "noF1" }] },
        behavioral := { layer_name := "Behavioral" },
        psychographic := { layer_name := "Psychographic" } } =
    EvaluationReport.overall_f1
      { transcript_id := "t",
        surface :=
          { layer_name := "Surface",
            signal_metrics := [{ signal_name := "aspects", f1 := some (1/2) }] },
        behavioral := { layer_name := "Behavioral" },
        psychographic := { layer_name := "Psychographic" } } :=
  C6_overall_f1_mean_of_present.2
    { transcript_id := "t",
      surface :=
        { layer_name := "Surface",
          signal_metrics := [{ signal_name := "aspects", f1 := some (1/2) }] },
      behavioral := { layer_name := "Behavioral" },
      psychographic := { layer_name := "Psychographic" } }
    { signal_name := "noF1" } rfl

lemma map_f1_addBaselines (bo : SignalMetrics → Option ℚ) (rep : LayerReport) :
    (addBaselines bo rep).signal_metrics.map (fun m => m.f1) =
      rep.signal_metrics.map (fun m => m.f1) := by
  simp only [addBaselines, List.map_map]
  refine List.map_congr_left ?_
  intro a _
  simp only [Function.comp]
  split <;> rfl

lemma map_f1_addJudgeScoresSurface (judge : LLMJudge) (e g : ExtractionResult)
    (rep : LayerReport) :
    (addJudgeScoresSurface judge e g rep).signal_metrics.map (fun m => m.f1) =
      rep.signal_metrics.map (fun m => m.f1) := by
  simp only [addJudgeScoresSurface, List.map_map]
  refine List.map_congr_left ?_
  intro a _
  simp only [Function.comp]
  split <;> rfl

lemma overall_f1_ne_none_of_mem (r : EvaluationReport) (m : SignalMetrics) (v : ℚ)
    (hm : m ∈ r.all_signal_metrics) (hf : m.f1 = some v) : r.overall_f1 ≠ none := by
  have hv : v ∈ r.all_signal_metrics.filterMap (fun m => m.f1) :=
    List.mem_filterMap.mpr ⟨m, hm, hf⟩
  unfold EvaluationReport.overall_f1
  intro hcontra
  by_cases hc : r.all_signal_metrics.filterMap (fun m => m.f1) = []
  · rw [hc] at hv
    exact List.not_mem_nil v hv
  · rw [if_neg hc] at hcontra
    exact Option.some_ne_none _ hcontra

/-- C10: every report produced by `evaluate` has a defined `overall_f1`
(never the NaN empty-mean sentinel): the mental-model metric always
carries the primary-match value as its F1, and every surface signal
metric carries a numeric F1 from fuzzy matching, so at least one F1 is
always present. -/
theorem C10_overall_f1_always_defined :
    ∀ (extracted ground_truth : ExtractionResult) (transcript : Transcript)
      (skip_llm_judge skip_baselines : Bool) (judge : LLMJudge)
      (baseline_oracle : SignalMetrics → Option ℚ),
      (evaluate extracted ground_truth transcript skip_llm_judge skip_baselines
        judge baseline_oracle).overall_f1 ≠ none ∧
      (PsychographicEvaluator_eval_mental_model extracted.psychographic
          ground_truth.psychographic).f1 =
        some (if extracted.psychographic.mental_model.primary ==
          ground_truth.psychographic.mental_model.primary then 1 else 0) ∧
      (∀ m ∈ (SurfaceEvaluator_evaluate extracted.surface ground_truth.surface
          transcript).signal_metrics, m.f1 ≠ none) := by
  intro e g t sj sb judge bo
  refine ⟨?_, rfl, ?_⟩
  · set s0 := SurfaceEvaluator_evaluate e.surface g.surface t with hs0
    set s1 := if sb then s0 else addBaselines bo s0 with hs1
    set s2 := if sj then s1 else addJudgeScoresSurface judge e g s1 with hs2
    have hm1 : s1.signal_metrics.map (fun m => m.f1) =
        s0.signal_metrics.map (fun m => m.f1) := by
      rw [hs1]
      split
      · rfl
      · exact map_f1_addBaselines bo s0
    have hm2 : s2.signal_metrics.map (fun m => m.f1) =
        s0.signal_metrics.map (fun m => m.f1) := by
      rw [hs2]
      split
      · exact hm1
      · rw [map_f1_addJudgeScoresSurface judge e g s1]
        exact hm1
    have hs0map : s0.signal_metrics.map (fun m => m.f1) =
        [(SurfaceEvaluator_eval_aspects e.surface g.surface (transcriptMaxIdx t)).f1,
         (SurfaceEvaluator_eval_topics e.surface g.surface t).f1,
         (SurfaceEvaluator_eval_entities e.surface g.surface).f1,
         (SurfaceEvaluator_eval_key_phrases e.surface g.surface).f1] := rfl
    have hmem : (SurfaceEvaluator_eval_aspects e.surface g.surface
        (transcriptMaxIdx t)).f1 ∈ s2.signal_metrics.map (fun m => m.f1) := by
      rw [hm2, hs0map]
      exact List.mem_cons_self _ _
    obtain ⟨m, hmmem, hmf⟩ := List.mem_map.mp hmem
    have hrep : (evaluate e g t sj sb judge bo).surface = s2 := rfl
    refine overall_f1_ne_none_of_mem _ m
      ((compute_fuzzy_precision_recall
        (e.surface.aspects.map (fun a => a.aspect))
        (g.surface.aspects.map (fun a => a.aspect))
        token_overlap_similarity ASPECT_THRESHOLD).2.2.1) ?_ ?_
    · unfold EvaluationReport.all_signal_metrics
      rw [hrep]
      exact List.mem_append_left _ (List.mem_append_left _ (List.mem_append_left _ hmmem))
    · exact hmf
  · intro m hm
    have : m = SurfaceEvaluator_eval_aspects e.surface g.surface (transcriptMaxIdx t) ∨
        m = SurfaceEvaluator_eval_topics e.surface g.surface t ∨
        m = SurfaceEvaluator_eval_entities e.surface g.surface ∨
        m = SurfaceEvaluator_eval_key_phrases e.surface g.surface := by
      simpa [SurfaceEvaluator_evaluate] using hm
    rcases this with rfl | rfl | rfl | rfl <;> simp [SurfaceEvaluator_eval_aspects,
      SurfaceEvaluator_eval_topics, SurfaceEvaluator_eval_entities,
      SurfaceEvaluator_eval_key_phrases]

lemma greedyAssign_sublist : ∀ (ps : List (ℚ × ℕ × ℕ)) (uE uG : List ℕ),
    (greedyAssign ps uE uG).Sublist ps := by
  intro ps
  induction ps with
  | nil => intro uE uG; simp [greedyAssign]
  | cons p rest ih =>
    intro uE uG
    by_cases h : p.2.1 ∈ uE ∨ p.2.2 ∈ uG
    · rw [greedyAssign, if_pos h]
      exact (ih uE uG).cons p
    · rw [greedyAssign, if_neg h]
      exact (ih _ _).cons₂ p

lemma greedyAssign_fst_nodup : ∀ (ps : List (ℚ × ℕ × ℕ)) (uE uG : List ℕ),
    ((greedyAssign ps uE uG).map (fun t => t.2.1)).Nodup ∧
    ∀ i ∈ (greedyAssign ps uE uG).map (fun t => t.2.1), i ∉ uE := by
  intro ps
  induction ps with
  | nil => intro uE uG; simp [greedyAssign]
  | cons p rest ih =>
    intro uE uG
    by_cases h : p.2.1 ∈ uE ∨ p.2.2 ∈ uG
    · rw [greedyAssign, if_pos h]
      exact ih uE uG
    · rw [greedyAssign, if_neg h]
      push_neg at h
      obtain ⟨ihnd, ihdisj⟩ := ih (p.2.1 :: uE) (p.2.2 :: uG)
      refine ⟨List.nodup_cons.mpr ⟨?_, ihnd⟩, ?_⟩
      · intro hmem
        exact (ihdisj _ hmem) (List.mem_cons_self _ _)
      · intro i hi
        rw [List.map_cons, List.mem_cons] at hi
        rcases hi with rfl | hi
        · exact h.1
        · intro hiuE
          exact (ihdisj i hi) (List.mem_cons_of_mem _ hiuE)

lemma greedyAssign_snd_nodup : ∀ (ps : List (ℚ × ℕ × ℕ)) (uE uG : List ℕ),
    ((greedyAssign ps uE uG).map (fun t => t.2.2)).Nodup ∧
    ∀ j ∈ (greedyAssign ps uE uG).map (fun t => t.2.2), j ∉ uG := by
  intro ps
  induction ps with
  | nil => intro uE uG; simp [greedyAssign]
  | cons p rest ih =>
    intro uE uG
    by_cases h : p.2.1 ∈ uE ∨ p.2.2 ∈ uG
    · rw [greedyAssign, if_pos h]
      exact ih uE uG
    · rw [greedyAssign, if_neg h]
      push_neg at h
      obtain ⟨ihnd, ihdisj⟩ := ih (p.2.1 :: uE) (p.2.2 :: uG)
      refine ⟨List.nodup_cons.mpr ⟨?_, ihnd⟩, ?_⟩
      · intro hmem
        exact (ihdisj _ hmem) (List.mem_cons_self _ _)
      · intro j hj
        rw [List.map_cons, List.mem_cons] at hj
        rcases hj with rfl | hj
        · exact h.2
        · intro hjuG
          exact (ihdisj j hj) (List.mem_cons_of_mem _ hjuG)

lemma mem_candidatePairs {e g : List String} {f : String → String → ℚ} {θ : ℚ}
    {t : ℚ × ℕ × ℕ} (h : t ∈ candidatePairs e g f θ) :
    t.2.1 < e.length ∧ t.2.2 < g.length ∧ θ ≤ t.1 ∧
      t.1 = f (e.getD t.2.1 "") (g.getD t.2.2 "") := by
  unfold candidatePairs at h
  rw [List.mem_flatMap] at h
  obtain ⟨i, hi, ht⟩ := h
  rw [List.mem_filterMap] at ht
  obtain ⟨j, hj, hjt⟩ := ht
  rw [List.mem_range] at hi
  rw [List.mem_range] at hj
  by_cases hθ : θ ≤ f (e.getD i "") (g.getD j "")
  · rw [if_pos hθ] at hjt
    obtain rfl := Option.some_injective _ hjt
    exact ⟨hi, hj, hθ, rfl⟩
  · rw [if_neg hθ] at hjt
    exact absurd hjt (Option.noConfusion)

lemma mem_fuzzyMatchedIdx {e g : List String} {f : String → String → ℚ} {θ : ℚ}
    {t : ℚ × ℕ × ℕ} (h : t ∈ fuzzyMatchedIdx e g f θ) :
    t ∈ candidatePairs e g f θ := by
  have hsub := greedyAssign_sublist
    (List.insertionSort descBySim (candidatePairs e g f θ)) [] []
  have hmem := hsub.subset h
  exact (List.perm_insertionSort descBySim (candidatePairs e g f θ)).subset hmem

lemma fuzzyMatchedIdx_sorted (e g : List String) (f : String → String → ℚ) (θ : ℚ) :
    (fuzzyMatchedIdx e g f θ).Pairwise descBySim := by
  have hsorted : (List.insertionSort descBySim (candidatePairs e g f θ)).Pairwise
      descBySim := List.sorted_insertionSort descBySim (candidatePairs e g f θ)
  exact List.Pairwise.sublist (greedyAssign_sublist _ [] []) hsorted

lemma length_le_of_nodup_lt (l : List ℕ) (n : ℕ) (hnd : l.Nodup)
    (hlt : ∀ x ∈ l, x < n) : l.length ≤ n := by
  have h1 : l.toFinset ⊆ Finset.range n := by
    intro x hx
    rw [List.mem_toFinset] at hx
    rw [Finset.mem_range]
    exact hlt x hx
  have h2 := Finset.card_le_card h1
  rwa [List.toFinset_card_of_nodup hnd, Finset.card_range] at h2

lemma fuzzyMatchedIdx_length_le (e g : List String) (f : String → String → ℚ) (θ : ℚ) :
    (fuzzyMatchedIdx e g f θ).length ≤ e.length ∧
      (fuzzyMatchedIdx e g f θ).length ≤ g.length := by
  constructor
  · have := length_le_of_nodup_lt ((fuzzyMatchedIdx e g f θ).map (fun t => t.2.1))
      e.length (greedyAssign_fst_nodup _ [] []).1 ?_
    · simpa using this
    · intro x hx
      rw [List.mem_map] at hx
      obtain ⟨t, ht, rfl⟩ := hx
      exact (mem_candidatePairs (mem_fuzzyMatchedIdx ht)).1
  · have := length_le_of_nodup_lt ((fuzzyMatchedIdx e g f θ).map (fun t => t.2.2))
      g.length (greedyAssign_snd_nodup _ [] []).1 ?_
    · simpa using this
    · intro x hx
      rw [List.mem_map] at hx
      obtain ⟨t, ht, rfl⟩ := hx
      exact (mem_candidatePairs (mem_fuzzyMatchedIdx ht)).2.1

lemma compute_fuzzy_matched_eq (e g : List String) (f : String → String → ℚ) (θ : ℚ) :
    (compute_fuzzy_precision_recall e g f θ).2.2.2 =
      (fuzzyMatchedIdx e g f θ).map
        (fun t => (e.getD t.2.1 "", g.getD t.2.2 "", t.1)) := by
  by_cases he : e = []
  · by_cases hg : g = []
    · subst he
      subst hg
      rfl
    · subst he
      unfold compute_fuzzy_precision_recall
      rw [if_neg (fun h => hg h.2), if_pos rfl]
      simp [fuzzyMatchedIdx, candidatePairs, greedyAssign]
  · by_cases hg : g = []
    · subst hg
      unfold compute_fuzzy_precision_recall
      rw [if_neg (fun h => he h.1), if_neg he, if_pos rfl]
      have hcp : candidatePairs e [] f θ = [] := by
        unfold candidatePairs
        rw [List.flatMap_eq_nil_iff]
        intro x _
        rfl
      simp [fuzzyMatchedIdx, hcp, greedyAssign, List.insertionSort]
    · unfold compute_fuzzy_precision_recall
      rw [if_neg (fun h => he h.1), if_neg he, if_neg hg]

/-- C2: the matched pairs of `compute_fuzzy_precision_recall` come from an
index-level matching in which no extracted index and no ground-truth
index is used twice; consequently the number of matched pairs is at most
`min |extracted| |ground_truth|` and the returned precision and recall
lie in `[0, 1]`. -/
theorem C2_fuzzy_matching_injective_partial :
    ∀ (extracted ground_truth : List String) (similarity_fn : String → String → ℚ)
      (threshold : ℚ),
      ((fuzzyMatchedIdx extracted ground_truth similarity_fn threshold).map
        (fun t => t.2.1)).Nodup ∧
      ((fuzzyMatchedIdx extracted ground_truth similarity_fn threshold).map
        (fun t => t.2.2)).Nodup ∧
      (compute_fuzzy_precision_recall extracted ground_truth similarity_fn
          threshold).2.2.2 =
        (fuzzyMatchedIdx extracted ground_truth similarity_fn threshold).map
          (fun t => (extracted.getD t.2.1 "", ground_truth.getD t.2.2 "", t.1)) ∧
      (compute_fuzzy_precision_recall extracted ground_truth similarity_fn
          threshold).2.2.2.length ≤ min extracted.length ground_truth.length ∧
      0 ≤ (compute_fuzzy_precision_recall extracted ground_truth similarity_fn
          threshold).1 ∧
      (compute_fuzzy_precision_recall extracted ground_truth similarity_fn
          threshold).1 ≤ 1 ∧
      0 ≤ (compute_fuzzy_precision_recall extracted ground_truth similarity_fn
          threshold).2.1 ∧
      (compute_fuzzy_precision_recall extracted ground_truth similarity_fn
          threshold).2.1 ≤ 1 := by
  intro e g f θ
  have hidx := fuzzyMatchedIdx_length_le e g f θ
  have hmatched := compute_fuzzy_matched_eq e g f θ
  refine ⟨(greedyAssign_fst_nodup _ [] []).1, (greedyAssign_snd_nodup _ [] []).1,
    hmatched, ?_, ?_⟩
  · rw [hmatched, List.length_map]
    exact le_min hidx.1 hidx.2
  · by_cases he : e = []
    · by_cases hg : g = []
      · subst he
        subst hg
        norm_num [compute_fuzzy_precision_recall]
      · subst he
        unfold compute_fuzzy_precision_recall
        rw [if_neg (fun h => hg h.2), if_pos rfl]
        norm_num
    · by_cases hg : g = []
      · subst hg
        unfold compute_fuzzy_precision_recall
        rw [if_neg (fun h => he h.1), if_neg he, if_pos rfl]
        norm_num
      · unfold compute_fuzzy_precision_recall
        rw [if_neg (fun h => he h.1), if_neg he, if_neg hg]
        simp only [List.length_map]
        have he' : 0 < e.length := List.length_pos.mpr he
        have hg' : 0 < g.length := List.length_pos.mpr hg
        have he'' : (0 : ℚ) < e.length := by exact_mod_cast he'
        have hg'' : (0 : ℚ) < g.length := by exact_mod_cast hg'
        refine ⟨by positivity, ?_, by positivity, ?_⟩
        · rw [div_le_one he'']
          exact_mod_cast hidx.1
        · rw [div_le_one hg'']
          exact_mod_cast hidx.2

/-- C1: `compute_fuzzy_precision_recall` implements greedy one-to-one
matching: the empty-input conventions are `(1,1,1,[])`, `(0,0,0,[])` and
`(0,1,0,[])`; on nonempty inputs the returned precision and recall are
`matched / |extracted|` and `matched / |ground_truth|`; every matched
pair carries a similarity that is at least the threshold and is exactly
the similarity of the paired strings; matched pairs are assigned in
descending similarity order; and the documented scenario evaluates to
precision 0.5, recall 0.5 with the single pair `("pricing","pricing",1)`. -/
theorem C1_compute_fuzzy_precision_recall_spec :
    (∀ (f : String → String → ℚ) (θ : ℚ),
      compute_fuzzy_precision_recall [] [] f θ = (1, 1, 1, [])) ∧
    (∀ (f : String → String → ℚ) (θ : ℚ) (b : String) (g : List String),
      compute_fuzzy_precision_recall [] (b :: g) f θ = (0, 0, 0, [])) ∧
    (∀ (f : String → String → ℚ) (θ : ℚ) (a : String) (e : List String),
      compute_fuzzy_precision_recall (a :: e) [] f θ = (0, 1, 0, [])) ∧
    (∀ (f : String → String → ℚ) (θ : ℚ) (a b : String) (e g : List String),
      (compute_fuzzy_precision_recall (a :: e) (b :: g) f θ).1 =
        ((compute_fuzzy_precision_recall (a :: e) (b :: g) f θ).2.2.2.length : ℚ) /
          ((a :: e).length : ℚ) ∧
      (compute_fuzzy_precision_recall (a :: e) (b :: g) f θ).2.1 =
        ((compute_fuzzy_precision_recall (a :: e) (b :: g) f θ).2.2.2.length : ℚ) /
          ((b :: g).length : ℚ)) ∧
    (∀ (f : String → String → ℚ) (θ : ℚ) (e g : List String),
      ∀ pr ∈ (compute_fuzzy_precision_recall e g f θ).2.2.2,
        θ ≤ pr.2.2 ∧ pr.2.2 = f pr.1 pr.2.1) ∧
    (∀ (f : String → String → ℚ) (θ : ℚ) (e g : List String),
      (compute_fuzzy_precision_recall e g f θ).2.2.2.Pairwise
        (fun x y => y.2.2 ≤ x.2.2)) ∧
    compute_fuzzy_precision_recall ["pricing", "support"] ["pricing", "integration"]
      token_overlap_similarity (1/2) = (1/2, 1/2, 1/2, [("pricing", "pricing", 1)]) := by
  refine ⟨fun f θ => rfl, ?_, ?_, ?_, ?_, ?_, by decide⟩
  · intro f θ b g
    unfold compute_fuzzy_precision_recall
    rw [if_neg (fun h => List.cons_ne_nil b g h.2), if_pos rfl]
  · intro f θ a e
    unfold compute_fuzzy_precision_recall
    rw [if_neg (fun h => List.cons_ne_nil a e h.1),
      if_neg (List.cons_ne_nil a e), if_pos rfl]
  · intro f θ a b e g
    unfold compute_fuzzy_precision_recall
    rw [if_neg (fun h => List.cons_ne_nil a e h.1),
      if_neg (List.cons_ne_nil a e), if_neg (List.cons_ne_nil b g)]
    exact ⟨rfl, rfl⟩
  · intro f θ e g pr hpr
    rw [compute_fuzzy_matched_eq] at hpr
    rw [List.mem_map] at hpr
    obtain ⟨t, ht, rfl⟩ := hpr
    have hc := mem_candidatePairs (mem_fuzzyMatchedIdx ht)
    exact ⟨hc.2.2.1, hc.2.2.2⟩
  · intro f θ e g
    rw [compute_fuzzy_matched_eq, List.pairwise_map]
    exact fuzzyMatchedIdx_sorted e g f θ

/-- Witness for C1 at the documented scenario and small concrete inputs. -/
theorem C1_witness :
    compute_fuzzy_precision_recall [] ["pricing"] token_overlap_similarity (1/2) =
      (0, 0, 0, []) ∧
    compute_fuzzy_precision_recall ["pricing"] [] token_overlap_similarity (1/2) =
      (0, 1, 0, []) ∧
    (compute_fuzzy_precision_recall ["pricing", "support"] ["pricing", "integration"]
        token_overlap_similarity (1/2)).1 =
      ((compute_fuzzy_precision_recall ["pricing", "support"] ["pricing", "integration"]
        token_overlap_similarity (1/2)).2.2.2.length : ℚ) / 2 ∧
    ((1 : ℚ)/2 ≤ (1 : ℚ) ∧
      (1 : ℚ) = token_overlap_similarity "pricing" "pricing") :=
  ⟨C1_compute_fuzzy_precision_recall_spec.2.1 token_overlap_similarity (1/2) "pricing" [],
   C1_compute_fuzzy_precision_recall_spec.2.2.1 token_overlap_similarity (1/2) "pricing" [],
   (C1_compute_fuzzy_precision_recall_spec.2.2.2.1 token_overlap_similarity (1/2)
     "pricing" "pricing" ["support"] ["integration"]).1,
   C1_compute_fuzzy_precision_recall_spec.2.2.2.2.1 token_overlap_similarity (1/2)
     ["pricing", "support"] ["pricing", "integration"] ("pricing", "pricing", 1)
     (by decide)⟩

/-- C5 counterexample: the multimodal hallucination branch (extraction has
multimodal data, ground truth has none) produces a `LayerReport` - so the
claimed invariant applies to it - but that report contains a `divergences`
metric and no `composite_sentiments` metric at all, not one
`SignalMetrics` per signal type defined by the multimodal layer. -/
theorem C5_counterexample :
    (MultimodalEvaluator_evaluate (some ⟨[], []⟩) none ⟨[]⟩).map
      (fun rep => rep.signal_metrics.map (fun m => m.signal_name)) =
      some ["divergences"] ∧
    (MultimodalEvaluator_evaluate (some ⟨[], []⟩) none ⟨[]⟩).map
      (fun rep => rep.signal_metrics.countP
        (fun m => m.signal_name == "composite_sentiments")) = some 0 := by decide

/-- C5 (amended): each of the Surface, Behavioral and Psychographic
evaluators always produces exactly one `SignalMetrics` per signal type of
its layer, and so does the Multimodal evaluator when both sides carry
multimodal data; in the presence-mismatch cases the multimodal report
carries exactly one `divergences` metric. Whenever a (list-valued) signal
type is empty in both extraction and ground truth, that signal's
precision, recall and F1 are all 1. -/
theorem C5_layer_signal_coverage :
    (∀ (e g : SurfaceSignals) (t : Transcript),
      (SurfaceEvaluator_evaluate e g t).signal_metrics.map (fun m => m.signal_name) =
        ["aspects", "topics", "entities", "key_phrases"]) ∧
    (∀ (e g : BehavioralSignals) (t : Transcript),
      (BehavioralEvaluator_evaluate e g t).signal_metrics.map (fun m => m.signal_name) =
        ["objection_triples", "buying_intent", "competitive_mentions",
         "engagement_trajectory"]) ∧
    (∀ (e g : PsychographicSignals) (t : Transcript),
      (PsychographicEvaluator_evaluate e g t).signal_metrics.map
        (fun m => m.signal_name) =
        ["mental_model", "persona_indicators", "language_fingerprint"]) ∧
    (∀ (e g : MultimodalSignals) (t : Transcript),
      (MultimodalEvaluator_evaluate (some e) (some g) t).map
        (fun rep => rep.signal_metrics.map (fun m => m.signal_name)) =
        some ["divergences", "composite_sentiments"]) ∧
    (∀ (e : MultimodalSignals) (t : Transcript),
      (MultimodalEvaluator_evaluate (some e) none t).map
        (fun rep => rep.signal_metrics.map (fun m => m.signal_name)) =
        some ["divergences"]) ∧
    (∀ (g : MultimodalSignals) (t : Transcript),
      (MultimodalEvaluator_evaluate none (some g) t).map
        (fun rep => rep.signal_metrics.map (fun m => m.signal_name)) =
        some ["divergences"]) ∧
    (∀ (e g : SurfaceSignals) (i : ℤ), e.aspects = [] → g.aspects = [] →
      (SurfaceEvaluator_eval_aspects e g i).precision = some 1 ∧
      (SurfaceEvaluator_eval_aspects e g i).recall' = some 1 ∧
      (SurfaceEvaluator_eval_aspects e g i).f1 = some 1) ∧
    (∀ (e g : SurfaceSignals) (t : Transcript), e.topics = [] → g.topics = [] →
      (SurfaceEvaluator_eval_topics e g t).precision = some 1 ∧
      (SurfaceEvaluator_eval_topics e g t).recall' = some 1 ∧
      (SurfaceEvaluator_eval_topics e g t).f1 = some 1) ∧
    (∀ (e g : SurfaceSignals), e.entities = [] → g.entities = [] →
      (SurfaceEvaluator_eval_entities e g).precision = some 1 ∧
      (SurfaceEvaluator_eval_entities e g).recall' = some 1 ∧
      (SurfaceEvaluator_eval_entities e g).f1 = some 1) ∧
    (∀ (e g : SurfaceSignals), e.key_phrases = [] → g.key_phrases = [] →
      (SurfaceEvaluator_eval_key_phrases e g).precision = some 1 ∧
      (SurfaceEvaluator_eval_key_phrases e g).recall' = some 1 ∧
      (SurfaceEvaluator_eval_key_phrases e g).f1 = some 1) ∧
    (∀ (e g : BehavioralSignals) (i : ℤ),
      e.objection_triples = [] → g.objection_triples = [] →
      (BehavioralEvaluator_eval_objection_triples e g i).precision = some 1 ∧
      (BehavioralEvaluator_eval_objection_triples e g i).recall' = some 1 ∧
      (BehavioralEvaluator_eval_objection_triples e g i).f1 = some 1) ∧
    (∀ (e g : BehavioralSignals),
      e.buying_intent_markers = [] → g.buying_intent_markers = [] →
      (BehavioralEvaluator_eval_buying_intent e g).precision = some 1 ∧
      (BehavioralEvaluator_eval_buying_intent e g).recall' = some 1 ∧
      (BehavioralEvaluator_eval_buying_intent e g).f1 = some 1) ∧
    (∀ (e g : BehavioralSignals) (i : ℤ),
      e.competitive_mentions = [] → g.competitive_mentions = [] →
      (BehavioralEvaluator_eval_competitive_mentions e g i).precision = some 1 ∧
      (BehavioralEvaluator_eval_competitive_mentions e g i).recall' = some 1 ∧
      (BehavioralEvaluator_eval_competitive_mentions e g i).f1 = some 1) ∧
    (∀ (e g : BehavioralSignals),
      e.engagement_trajectory = [] → g.engagement_trajectory = [] →
      (BehavioralEvaluator_eval_engagement_trajectory e g).precision = some 1 ∧
      (BehavioralEvaluator_eval_engagement_trajectory e g).recall' = some 1 ∧
      (BehavioralEvaluator_eval_engagement_trajectory e g).f1 = some 1) ∧
    (∀ (e g : PsychographicSignals),
      e.persona_indicators = [] → g.persona_indicators = [] →
      (PsychographicEvaluator_eval_persona_indicators e g).precision = some 1 ∧
      (PsychographicEvaluator_eval_persona_indicators e g).recall' = some 1 ∧
      (PsychographicEvaluator_eval_persona_indicators e g).f1 = some 1) ∧
    (∀ (e g : PsychographicSignals),
      e.language_fingerprint = ⟨[], [], []⟩ → g.language_fingerprint = ⟨[], [], []⟩ →
      (PsychographicEvaluator_eval_language_fingerprint e g).precision = some 1 ∧
      (PsychographicEvaluator_eval_language_fingerprint e g).recall' = some 1 ∧
      (PsychographicEvaluator_eval_language_fingerprint e g).f1 = some 1) ∧
    (∀ (e g : MultimodalSignals) (i : ℤ), e.divergences = [] → g.divergences = [] →
      (MultimodalEvaluator_eval_divergences e g i).precision = some 1 ∧
      (MultimodalEvaluator_eval_divergences e g i).recall' = some 1 ∧
      (MultimodalEvaluator_eval_divergences e g i).f1 = some 1) ∧
    (∀ (e g : MultimodalSignals),
      e.composite_sentiments = [] → g.composite_sentiments = [] →
      (MultimodalEvaluator_eval_composite_sentiments e g).precision = some 1 ∧
      (MultimodalEvaluator_eval_composite_sentiments e g).recall' = some 1 ∧
      (MultimodalEvaluator_eval_composite_sentiments e g).f1 = some 1) := by
  refine ⟨fun e g t => rfl, fun e g t => rfl, fun e g t => rfl, fun e g t => rfl,
    fun e t => rfl, fun g t => rfl, ?_, ?_, ?_, ?_, ?_, ?_, ?_, ?_, ?_, ?_, ?_, ?_⟩
  · intro e g i h1 h2
    refine ⟨?_, ?_, ?_⟩ <;>
      simp [SurfaceEvaluator_eval_aspects, h1, h2, compute_fuzzy_precision_recall]
  · intro e g t h1 h2
    refine ⟨?_, ?_, ?_⟩ <;>
      simp [SurfaceEvaluator_eval_topics, h1, h2, compute_fuzzy_precision_recall]
  · intro e g h1 h2
    refine ⟨?_, ?_, ?_⟩ <;>
      simp [SurfaceEvaluator_eval_entities, h1, h2, compute_fuzzy_precision_recall]
  · intro e g h1 h2
    refine ⟨?_, ?_, ?_⟩ <;>
      simp [SurfaceEvaluator_eval_key_phrases, h1, h2, compute_fuzzy_precision_recall]
  · intro e g i h1 h2
    refine ⟨?_, ?_, ?_⟩ <;>
      simp [BehavioralEvaluator_eval_objection_triples, h1, h2, precision_recall_f1,
        precision, recall', f1] <;> norm_num
  · intro e g h1 h2
    refine ⟨?_, ?_, ?_⟩ <;>
      simp [BehavioralEvaluator_eval_buying_intent, h1, h2, precision_recall_f1,
        precision, recall', f1] <;> norm_num
  · intro e g i h1 h2
    refine ⟨?_, ?_, ?_⟩ <;>
      simp [BehavioralEvaluator_eval_competitive_mentions, h1, h2, precision_recall_f1,
        precision, recall', f1] <;> norm_num
  · intro e g h1 h2
    refine ⟨?_, ?_, ?_⟩ <;>
      simp [BehavioralEvaluator_eval_engagement_trajectory, h1, h2, precision_recall_f1,
        precision, recall', f1] <;> norm_num
  · intro e g h1 h2
    refine ⟨?_, ?_, ?_⟩ <;>
      simp [PsychographicEvaluator_eval_persona_indicators, h1, h2, precision_recall_f1,
        precision, recall', f1] <;> norm_num
  · intro e g h1 h2
    refine ⟨?_, ?_, ?_⟩ <;>
      simp [PsychographicEvaluator_eval_language_fingerprint, h1, h2,
        precision_recall_f1, precision, recall', f1,
        compute_fuzzy_precision_recall] <;> norm_num
  · intro e g i h1 h2
    refine ⟨?_, ?_, ?_⟩ <;>
      simp [MultimodalEvaluator_eval_divergences, h1, h2, precision_recall_f1,
        precision, recall', f1] <;> norm_num
  · intro e g h1 h2
    refine ⟨?_, ?_, ?_⟩ <;>
      simp [MultimodalEvaluator_eval_composite_sentiments, h1, h2, precision_recall_f1,
        precision, recall', f1] <;> norm_num

/-- Witness for the amended C5 at concrete all-empty layer inputs. -/
theorem C5_witness :
    (SurfaceEvaluator_eval_aspects ⟨[], [], [], []⟩ ⟨[], [], [], []⟩ 0).f1 = some 1 ∧
    (SurfaceEvaluator_eval_topics ⟨[], [], [], []⟩ ⟨[], [], [], []⟩ ⟨[]⟩).f1 = some 1 ∧
    (SurfaceEvaluator_eval_entities ⟨[], [], [], []⟩ ⟨[], [], [], []⟩).f1 = some 1 ∧
    (SurfaceEvaluator_eval_key_phrases ⟨[], [], [], []⟩ ⟨[], [], [], []⟩).f1 = some 1 ∧
    (BehavioralEvaluator_eval_objection_triples ⟨[], [], [], []⟩ ⟨[], [], [], []⟩ 0).f1 =
      some 1 ∧
    (BehavioralEvaluator_eval_buying_intent ⟨[], [], [], []⟩ ⟨[], [], [], []⟩).f1 =
      some 1 ∧
    (BehavioralEvaluator_eval_competitive_mentions ⟨[], [], [], []⟩
      ⟨[], [], [], []⟩ 0).f1 = some 1 ∧
    (BehavioralEvaluator_eval_engagement_trajectory ⟨[], [], [], []⟩
      ⟨[], [], [], []⟩).f1 = some 1 ∧
    (PsychographicEvaluator_eval_persona_indicators
      ⟨⟨"efficiency", none, [], 1/2, ""⟩, [], ⟨[], [], []⟩⟩
      ⟨⟨"efficiency", none, [], 1/2, ""⟩, [], ⟨[], [], []⟩⟩).f1 = some 1 ∧
    (PsychographicEvaluator_eval_language_fingerprint
      ⟨⟨"efficiency", none, [], 1/2, ""⟩, [], ⟨[], [], []⟩⟩
      ⟨⟨"efficiency", none, [], 1/2, ""⟩, [], ⟨[], [], []⟩⟩).f1 = some 1 ∧
    (MultimodalEvaluator_eval_divergences ⟨[], []⟩ ⟨[], []⟩ 0).f1 = some 1 ∧
    (MultimodalEvaluator_eval_composite_sentiments ⟨[], []⟩ ⟨[], []⟩).f1 = some 1 :=
  ⟨(C5_layer_signal_coverage.2.2.2.2.2.2.1 _ _ 0 rfl rfl).2.2,
   (C5_layer_signal_coverage.2.2.2.2.2.2.2.1 _ _ ⟨[]⟩ rfl rfl).2.2,
   (C5_layer_signal_coverage.2.2.2.2.2.2.2.2.1 _ _ rfl rfl).2.2,
   (C5_layer_signal_coverage.2.2.2.2.2.2.2.2.2.1 _ _ rfl rfl).2.2,
   (C5_layer_signal_coverage.2.2.2.2.2.2.2.2.2.2.1 _ _ 0 rfl rfl).2.2,
   (C5_layer_signal_coverage.2.2.2.2.2.2.2.2.2.2.2.1 _ _ rfl rfl).2.2,
   (C5_layer_signal_coverage.2.2.2.2.2.2.2.2.2.2.2.2.1 _ _ 0 rfl rfl).2.2,
   (C5_layer_signal_coverage.2.2.2.2.2.2.2.2.2.2.2.2.2.1 _ _ rfl rfl).2.2,
   (C5_layer_signal_coverage.2.2.2.2.2.2.2.2.2.2.2.2.2.2.1 _ _ rfl rfl).2.2,
   (C5_layer_signal_coverage.2.2.2.2.2.2.2.2.2.2.2.2.2.2.2.1 _ _ rfl rfl).2.2,
   (C5_layer_signal_coverage.2.2.2.2.2.2.2.2.2.2.2.2.2.2.2.2.1 _ _ 0 rfl rfl).2.2,
   (C5_layer_signal_coverage.2.2.2.2.2.2.2.2.2.2.2.2.2.2.2.2.2 _ _ rfl rfl).2.2⟩

/-- C7 counterexample: with judge scoring enabled, an input with six
extracted persona indicators receives six judge scores on the
`persona_indicators` signal type - more than the claimed cap of 5. -/
theorem C7_counterexample :
    ((evaluate extractionSixPersonas extractionNoPersonas ⟨[]⟩ false true constJudge
        (fun _ => none)).all_signal_metrics.find?
      (fun m => m.signal_name == "persona_indicators")).map
        (fun m => m.judge_scores.length) = some 6 ∧ ¬(6 ≤ 5) := by decide

lemma withJudgeScores_judge_scores (m : SignalMetrics) (s : List JudgeScore) :
    (withJudgeScores m s).judge_scores = m.judge_scores ++ s := rfl

lemma withJudgeScores_cap_mean (m : SignalMetrics) (s : List JudgeScore)
    (hjs : m.judge_scores = []) :
    (withJudgeScores m s).judge_scores = s ∧
    ((withJudgeScores m s).judge_scores ≠ [] →
      (withJudgeScores m s).mean_judge_score =
        some ((((withJudgeScores m s).judge_scores.map (fun x => x.score)).sum : ℚ) /
          ((withJudgeScores m s).judge_scores.length : ℚ))) := by
  constructor
  · rw [withJudgeScores_judge_scores, hjs, List.nil_append]
  · intro hne
    rw [withJudgeScores_judge_scores, hjs, List.nil_append] at hne ⊢
    simp [withJudgeScores, hjs, hne]


/-- C7 (amended): the judge pass records at most 5 scores per signal type
for every signal type except `persona_indicators`, which receives one
score per extracted persona indicator with no cap (the source has no
`[:5]` slice on that loop); the four core evaluators start every metric
with no judge scores, the baseline pass never touches them, and whenever
at least one score is recorded for a signal type, `mean_judge_score` is
the arithmetic mean of the recorded scores. -/
theorem C7_judge_score_caps :
    (∀ (judge : LLMJudge) (e g : ExtractionResult) (rep : LayerReport),
      (∀ m ∈ rep.signal_metrics, m.judge_scores = []) →
      ∀ m' ∈ (addJudgeScoresSurface judge e g rep).signal_metrics,
        m'.judge_scores.length ≤ 5 ∧
        (m'.judge_scores ≠ [] → m'.mean_judge_score =
          some (((m'.judge_scores.map (fun s => s.score)).sum : ℚ) /
            (m'.judge_scores.length : ℚ)))) ∧
    (∀ (judge : LLMJudge) (e g : ExtractionResult) (rep : LayerReport),
      (∀ m ∈ rep.signal_metrics, m.judge_scores = []) →
      ∀ m' ∈ (addJudgeScoresBehavioral judge e g rep).signal_metrics,
        m'.judge_scores.length ≤ 5 ∧
        (m'.judge_scores ≠ [] → m'.mean_judge_score =
          some (((m'.judge_scores.map (fun s => s.score)).sum : ℚ) /
            (m'.judge_scores.length : ℚ)))) ∧
    (∀ (judge : LLMJudge) (e g : ExtractionResult) (rep : LayerReport),
      (∀ m ∈ rep.signal_metrics, m.judge_scores = []) →
      ∀ m' ∈ (addJudgeScoresPsychographic judge e g rep).signal_metrics,
        (m'.signal_name ≠ "persona_indicators" → m'.judge_scores.length ≤ 5) ∧
        (m'.signal_name = "persona_indicators" →
          m'.judge_scores.length = e.psychographic.persona_indicators.length) ∧
        (m'.judge_scores ≠ [] → m'.mean_judge_score =
          some (((m'.judge_scores.map (fun s => s.score)).sum : ℚ) /
            (m'.judge_scores.length : ℚ)))) ∧
    (∀ (judge : LLMJudge) (e_mm g_mm : Option MultimodalSignals)
        (repOpt : Option LayerReport),
      (∀ rep ∈ repOpt, ∀ m ∈ rep.signal_metrics, m.judge_scores = []) →
      ∀ rep' ∈ addJudgeScoresMultimodal judge e_mm g_mm repOpt,
        ∀ m' ∈ rep'.signal_metrics,
          m'.judge_scores.length ≤ 5 ∧
          (m'.judge_scores ≠ [] → m'.mean_judge_score =
            some (((m'.judge_scores.map (fun s => s.score)).sum : ℚ) /
              (m'.judge_scores.length : ℚ)))) ∧
    (∀ (e g : SurfaceSignals) (t : Transcript),
      ∀ m ∈ (SurfaceEvaluator_evaluate e g t).signal_metrics, m.judge_scores = []) ∧
    (∀ (e g : BehavioralSignals) (t : Transcript),
      ∀ m ∈ (BehavioralEvaluator_evaluate e g t).signal_metrics, m.judge_scores = []) ∧
    (∀ (e g : PsychographicSignals) (t : Transcript),
      ∀ m ∈ (PsychographicEvaluator_evaluate e g t).signal_metrics,
        m.judge_scores = []) ∧
    (∀ (e g : Option MultimodalSignals) (t : Transcript),
      ∀ rep ∈ MultimodalEvaluator_evaluate e g t,
        ∀ m ∈ rep.signal_metrics, m.judge_scores = []) ∧
    (∀ (bo : SignalMetrics → Option ℚ) (rep : LayerReport),
      (∀ m ∈ rep.signal_metrics, m.judge_scores = []) →
      ∀ m' ∈ (addBaselines bo rep).signal_metrics, m'.judge_scores = []) := by
  have hmean_untouched : ∀ m : SignalMetrics, m.judge_scores = [] →
      m.judge_scores.length ≤ 5 ∧
      (m.judge_scores ≠ [] → m.mean_judge_score =
        some (((m.judge_scores.map (fun s => s.score)).sum : ℚ) /
          (m.judge_scores.length : ℚ))) := by
    intro m hm
    rw [hm]
    exact ⟨by norm_num, fun hne => absurd rfl hne⟩
  have hcapped : ∀ (m : SignalMetrics) (s : List JudgeScore), m.judge_scores = [] →
      s.length ≤ 5 →
      (withJudgeScores m s).judge_scores.length ≤ 5 ∧
      ((withJudgeScores m s).judge_scores ≠ [] →
        (withJudgeScores m s).mean_judge_score =
          some ((((withJudgeScores m s).judge_scores.map (fun x => x.score)).sum : ℚ) /
            ((withJudgeScores m s).judge_scores.length : ℚ))) := by
    intro m s hjs hlen
    obtain ⟨h1, h2⟩ := withJudgeScores_cap_mean m s hjs
    constructor
    · rw [h1]
      exact hlen
    · exact h2
  refine ⟨?_, ?_, ?_, ?_, ?_, ?_, ?_, ?_, ?_⟩
  · intro judge e g rep hempty m' hm'
    rw [addJudgeScoresSurface] at hm'
    simp only [List.mem_map] at hm'
    obtain ⟨m, hm, rfl⟩ := hm'
    have hjs := hempty m hm
    by_cases h : m.signal_name == "aspects"
    · simp only [h, if_true]
      refine hcapped m _ hjs ?_
      rw [List.length_map]
      exact List.length_take_le 5 _
    · simp only [h, Bool.false_eq_true, if_false]
      exact hmean_untouched m hjs
  · intro judge e g rep hempty m' hm'
    rw [addJudgeScoresBehavioral] at hm'
    simp only [List.mem_map] at hm'
    obtain ⟨m, hm, rfl⟩ := hm'
    have hjs := hempty m hm
    by_cases h1 : m.signal_name == "objection_triples"
    · simp only [h1, if_true]
      refine hcapped m _ hjs ?_
      rw [List.length_map]
      exact List.length_take_le 5 _
    · by_cases h2 : m.signal_name == "competitive_mentions"
      · simp only [h1, h2, Bool.false_eq_true, if_false, if_true]
        refine hcapped m _ hjs ?_
        rw [List.length_map]
        exact le_trans (List.length_take_le 3 _) (by norm_num)
      · simp only [h1, h2, Bool.false_eq_true, if_false]
        exact hmean_untouched m hjs
  · intro judge e g rep hempty m' hm'
    rw [addJudgeScoresPsychographic] at hm'
    simp only [List.mem_map] at hm'
    obtain ⟨m, hm, rfl⟩ := hm'
    have hjs := hempty m hm
    by_cases h1 : m.signal_name == "persona_indicators"
    · simp only [h1, if_true]
      have hname : (withJudgeScores m ((e.psychographic.persona_indicators).map
          (fun ext_pi => judge.score_persona_reasoning ext_pi
            (g.psychographic.persona_indicators.find? (fun pi =>
              pi.archetype == ext_pi.archetype))))).signal_name = m.signal_name := rfl
      refine ⟨?_, ?_, ?_⟩
      · intro hne
        exact absurd (hname.trans (eq_of_beq h1)) hne
      · intro _
        rw [(withJudgeScores_cap_mean m _ hjs).1, List.length_map]
      · exact (withJudgeScores_cap_mean m _ hjs).2
    · by_cases h2 : m.signal_name == "language_fingerprint"
      · simp only [h1, h2, Bool.false_eq_true, if_false, if_true]
        refine ⟨?_, ?_, ?_⟩
        · intro _
          simp [hjs]
        · intro heq
          rw [show ({ m with
              judge_scores := m.judge_scores ++ [judge.score_framing_patterns
                e.psychographic.language_fingerprint
                g.psychographic.language_fingerprint],
              mean_judge_score := some ((judge.score_framing_patterns
                e.psychographic.language_fingerprint
                g.psychographic.language_fingerprint).score : ℚ) } :
              SignalMetrics).signal_name = m.signal_name from rfl] at heq
          exact absurd (by rw [heq]; exact beq_self_eq_true _) h1
        · intro _
          simp [hjs]
      · simp only [h1, h2, Bool.false_eq_true, if_false]
        have hmt := hmean_untouched m hjs
        refine ⟨fun _ => hmt.1, ?_, hmt.2⟩
        intro heq
        exact absurd (by rw [heq]; exact beq_self_eq_true _) h1
  · intro judge e_mm g_mm repOpt hempty rep' hrep' m' hm'
    rw [Option.mem_def] at hrep'
    rcases repOpt with _ | rep
    · exact Option.noConfusion hrep'
    · rcases e_mm with _ | ext_mm
      · obtain rfl := Option.some.inj hrep'
        exact hmean_untouched m' (hempty rep rfl m' hm')
      · rcases g_mm with _ | gt_mm
        · obtain rfl := Option.some.inj hrep'
          exact hmean_untouched m' (hempty rep rfl m' hm')
        · obtain rfl := Option.some.inj hrep'
          simp only [List.mem_map] at hm'
          obtain ⟨m, hm, rfl⟩ := hm'
          have hjs := hempty rep rfl m hm
          by_cases h : m.signal_name == "divergences"
          · simp only [h, if_true]
            refine hcapped m _ hjs ?_
            rw [List.length_map]
            exact List.length_take_le 5 _
          · simp only [h, Bool.false_eq_true, if_false]
            exact hmean_untouched m hjs
  · intro e g t m hm
    have : m = SurfaceEvaluator_eval_aspects e g (transcriptMaxIdx t) ∨
        m = SurfaceEvaluator_eval_topics e g t ∨
        m = SurfaceEvaluator_eval_entities e g ∨
        m = SurfaceEvaluator_eval_key_phrases e g := by
      simpa [SurfaceEvaluator_evaluate] using hm
    rcases this with rfl | rfl | rfl | rfl <;> rfl
  · intro e g t m hm
    have : m = BehavioralEvaluator_eval_objection_triples e g (transcriptMaxIdx t) ∨
        m = BehavioralEvaluator_eval_buying_intent e g ∨
        m = BehavioralEvaluator_eval_competitive_mentions e g (transcriptMaxIdx t) ∨
        m = BehavioralEvaluator_eval_engagement_trajectory e g := by
      simpa [BehavioralEvaluator_evaluate] using hm
    rcases this with rfl | rfl | rfl | rfl <;> rfl
  · intro e g t m hm
    have : m = PsychographicEvaluator_eval_mental_model e g ∨
        m = PsychographicEvaluator_eval_persona_indicators e g ∨
        m = PsychographicEvaluator_eval_language_fingerprint e g := by
      simpa [PsychographicEvaluator_evaluate] using hm
    rcases this with rfl | rfl | rfl <;> rfl
  · intro e g t rep hrep m hm
    rw [Option.mem_def] at hrep
    rcases e with _ | ext
    · rcases g with _ | gt
      · exact Option.noConfusion hrep
      · obtain rfl := Option.some.inj hrep
        simp only [List.mem_singleton] at hm
        subst hm
        rfl
    · rcases g with _ | gt
      · obtain rfl := Option.some.inj hrep
        simp only [List.mem_singleton] at hm
        subst hm
        rfl
      · obtain rfl := Option.some.inj hrep
        simp only [List.mem_cons, List.mem_singleton] at hm
        rcases hm with rfl | rfl | h
        · rfl
        · rfl
        · exact absurd h (List.not_mem_nil _)
  · intro bo rep hempty m' hm'
    rw [addBaselines] at hm'
    simp only [List.mem_map] at hm'
    obtain ⟨m, hm, rfl⟩ := hm'
    have hjs := hempty m hm
    split
    · exact hjs
    · exact hjs

/-- Witness for the amended C7: on the six-persona fixture the persona
metric records one score per extracted persona indicator and its mean is
the arithmetic mean of the recorded scores. -/
theorem C7_witness :
    personaPassMetric.judge_scores.length =
      extractionSixPersonas.psychographic.persona_indicators.length ∧
    personaPassMetric.mean_judge_score =
      some (((personaPassMetric.judge_scores.map (fun s => s.score)).sum : ℚ) /
        (personaPassMetric.judge_scores.length : ℚ)) :=
  ⟨(C7_judge_score_caps.2.2.1 constJudge extractionSixPersonas extractionNoPersonas
      (PsychographicEvaluator_evaluate extractionSixPersonas.psychographic
        extractionNoPersonas.psychographic ⟨[]⟩) (by decide)
      personaPassMetric (by decide)).2.1 (by decide),
   (C7_judge_score_caps.2.2.1 constJudge extractionSixPersonas extractionNoPersonas
      (PsychographicEvaluator_evaluate extractionSixPersonas.psychographic
        extractionNoPersonas.psychographic ⟨[]⟩) (by decide)
      personaPassMetric (by decide)).2.2 (by decide)⟩

/-- Witness for C10 at a concrete evaluation run. -/
theorem C10_witness :
    (evaluate extractionSixPersonas extractionNoPersonas ⟨[]⟩ true true constJudge
      (fun _ => none)).overall_f1 ≠ none ∧
    (SurfaceEvaluator_eval_aspects extractionSixPersonas.surface
      extractionNoPersonas.surface (transcriptMaxIdx ⟨[]⟩)).f1 ≠ none :=
  ⟨(C10_overall_f1_always_defined extractionSixPersonas extractionNoPersonas ⟨[]⟩
      true true constJudge (fun _ => none)).1,
   (C10_overall_f1_always_defined extractionSixPersonas extractionNoPersonas ⟨[]⟩
      true true constJudge (fun _ => none)).2.2
     (SurfaceEvaluator_eval_aspects extractionSixPersonas.surface
       extractionNoPersonas.surface (transcriptMaxIdx ⟨[]⟩)) (by decide)⟩
